import Mathlib

/-!
Adapter registry of the WinRT local-device backend.

Shallow embedding of `src/bluetooth/qbluetoothlocaldevice_winrt.cpp`:
the `AdapterManager` registry (`mRadios`), its client counting, the
state-change handler, the adapter added/removed handlers, the resubscription
retry chain and `updateMode`; the polling loop of `await`; the pairing worker
with `requestPairing` and `pairingStatus`; construction and destruction of
the facade `QBluetoothLocalDevicePrivate`.

Conventions of the embedding.

* A nullable WinRT object (`Radio`, `BluetoothAdapter`) is an `Option`; `none`
  is `nullptr`.
* What the platform answers (the state a radio reports, the token returned by
  a handler registration, the result of an asynchronous operation) is an
  explicit argument of the handler that asks for it; a radio reports one
  state for the duration of one handler.
* Every handler returns an `Outcome`: the registry after the handler's own
  writes, the ordered list of observable events it produced (signals, log
  lines, platform calls, timers) and its return value.
* A handler that releases `mRadiosMutex`, suspends in `await` and then takes
  the mutex again sees the registry as other handlers left it; that change is
  the argument `during`.
* `numClients` and `numAttempts` are C++ `int`s.  They count live facade
  objects and retry attempts; they are embedded as `Int` and `Nat` without
  wrap-around.
-/

namespace QtConnectivity

/-! ## Platform enumerations -/

/-- Enumeration `winrt::Windows::Devices::Radios::RadioState`. -/
inductive RadioState where
  | Unknown
  | On
  | Off
  | Disabled
  deriving DecidableEq, Repr

/-- Enumeration `winrt::Windows::Devices::Radios::RadioAccessStatus`. -/
inductive RadioAccessStatus where
  | Unspecified
  | Allowed
  | DeniedByUser
  | DeniedBySystem
  deriving DecidableEq, Repr

/-- Modelled from the spec: the enumeration `QBluetoothLocalDevice::HostMode` is
declared in a header outside the sources.  The spec's power states PoweredOff
and Connectable are `HostPoweredOff` and `HostConnectable`; the two further
enumerators are the ones `adjustHostMode` names. -/
inductive HostMode where
  | HostPoweredOff
  | HostConnectable
  | HostDiscoverable
  | HostDiscoverableLimitedInquiry
  deriving DecidableEq, Repr

/-- Modelled from the spec: the enumeration `QBluetoothLocalDevice::Pairing` is
declared in a header outside the sources; its values are the spec's requested
modes Paired, AuthorizedPaired and Unpaired. -/
inductive Pairing where
  | Unpaired
  | Paired
  | AuthorizedPaired
  deriving DecidableEq, Repr

/-- Modelled from the spec: the enumeration `QBluetoothLocalDevice::Error` is
declared in a header outside the sources; `PairingError` is the value the
source emits. -/
inductive Error where
  | NoError
  | PairingError
  | UnknownError
  deriving DecidableEq, Repr

/-- Adapter identifier, a `winrt::hstring`. -/
abbrev AdapterId := String

/-- Identity of a non-null `Radio` object. -/
abbrev Radio := Nat

/-- Identity of a non-null `BluetoothAdapter` object. -/
abbrev Adapter := Nat

/-- Function `adjustHostMode`. -/
def adjustHostMode (mode : HostMode) : HostMode :=
  if mode = HostMode.HostPoweredOff then mode else HostMode.HostConnectable

/-- Function `modeFromWindowsBluetoothState`. -/
def modeFromWindowsBluetoothState (state : RadioState) : HostMode :=
  if state = RadioState.On then HostMode.HostConnectable else HostMode.HostPoweredOff

/-- Function `windowsStateFromMode`. -/
def windowsStateFromMode (mode : HostMode) : RadioState :=
  if mode = HostMode.HostPoweredOff then RadioState.Off else RadioState.On

/-! ## Observable events -/

/-- Qt signals of `AdapterManager`, `QBluetoothLocalDevicePrivate` and
`QBluetoothLocalDevice` that the source file emits. -/
inductive Signal where
  | adapterAdded (id : AdapterId)
  | adapterRemoved (id : AdapterId)
  | modeChanged (id : AdapterId) (mode : HostMode)
  | updateMode (id : AdapterId) (mode : HostMode)
  | hostModeStateChanged (mode : HostMode)
  | errorOccurred (error : Error)
  | pairingFinished (address : Nat) (pairing : Pairing)
  deriving DecidableEq, Repr

/-- Lines written to the `QT_BT_WINDOWS` logging category. -/
inductive LogLine where
  | failedToSubscribe
  | removingUnknownClient (id : AdapterId)
  | setStateAsyncFailed
  | checkPermissions
  | tryingToResubscribe
  | failedToResubscribe (numAttempts : Nat)
  | uninitializedAdapter
  | operationDenied
  deriving DecidableEq, Repr

/-- One observable step of a handler. -/
inductive Event where
  | emit (s : Signal)
  | warning (l : LogLine)
  | debug (l : LogLine)
  | resolve (id : AdapterId)
  | subscribe (radio : Radio)
  | unsubscribe (radio : Radio) (token : Nat)
  | setStateAsync (radio : Radio) (state : RadioState)
  | requestAccessAsync
  | singleShot (msec : Nat) (id : AdapterId) (numAttempts : Nat)
  | invokeQueued (id : AdapterId) (numAttempts : Nat)
  | emitQueued (s : Signal)
  | fromBluetoothAddressAsync (address : Nat)
  | leFromBluetoothAddressAsync (address : Nat)
  | pairingRequestedAdd (device : Nat)
  | pairAsync (device : Nat)
  | pairingRequestedRemove (device : Nat)
  | unpairAsync (device : Nat)
  deriving DecidableEq, Repr

/-- The signals emitted in a trace, in order. -/
def signalsOf (trace : List Event) : List Signal :=
  trace.filterMap fun e => match e with
    | Event.emit s => some s
    | _ => none

/-- The `modeChanged` signals emitted in a trace, in order. -/
def modeChangesOf (trace : List Event) : List (AdapterId × HostMode) :=
  trace.filterMap fun e => match e with
    | Event.emit (Signal.modeChanged id mode) => some (id, mode)
    | _ => none

/-- Number of calls of `getRadioFromAdapterId` in a trace. -/
def resolutionsOf (trace : List Event) : Nat :=
  (trace.filter fun e => match e with
    | Event.resolve _ => true
    | _ => false).length

/-- The retry a trace schedules through `QTimer::singleShot`, if any. -/
def scheduledRetry (trace : List Event) : Option (AdapterId × Nat) :=
  trace.findSome? fun e => match e with
    | Event.singleShot _ id n => some (id, n)
    | _ => none

/-! ## The registry `QMap<winrt::hstring, RadioInfo>` -/

/-- Struct `AdapterManager::RadioInfo` with its default member initialisers;
`stateToken` is the `value` of the `winrt::event_token`, `0` when default
constructed. -/
structure RadioInfo where
  radio : Option Radio := none
  stateToken : Nat := 0
  numClients : Int := 0
  currentState : RadioState := RadioState.Unknown
  deriving DecidableEq, Repr

/-- Lexicographic comparison of code-unit sequences. -/
def lexLt : List Nat → List Nat → Bool
  | _, [] => false
  | [], _ :: _ => true
  | a :: as, b :: bs => a < b || (a == b && lexLt as bs)

/-- Ordinal `operator<` of two `winrt::hstring`s, which orders the keys of the
map. -/
def hstringLt (a b : AdapterId) : Bool :=
  lexLt (a.data.map Char.toNat) (b.data.map Char.toNat)

/-- Member `mRadios`: the entries of the `QMap` in iteration order. -/
abbrev Registry := List (AdapterId × RadioInfo)

namespace QMap

/-- Lookup of the node of `key`. -/
def find (m : Registry) (key : AdapterId) : Option RadioInfo :=
  match m with
  | [] => none
  | (k, v) :: rest => if k = key then some v else find rest key

/-- Method `QMap::contains`. -/
def contains (m : Registry) (key : AdapterId) : Bool :=
  (find m key).isSome

/-- Method `QMap::operator[]` read on a key; a missing key reads as a default
constructed value. -/
def get (m : Registry) (key : AdapterId) : RadioInfo :=
  (find m key).getD {}

/-- Method `QMap::keys`. -/
def keys (m : Registry) : List AdapterId :=
  m.map Prod.fst

/-- Method `QMap::insert`: replaces the value of an existing key, otherwise
adds a node at the key's place in the order. -/
def insert (key : AdapterId) (value : RadioInfo) : Registry → Registry
  | [] => [(key, value)]
  | (k, v) :: rest =>
    if hstringLt key k then (key, value) :: (k, v) :: rest
    else if key = k then (key, value) :: rest
    else (k, v) :: insert key value rest

/-- Method `QMap::remove`. -/
def remove (key : AdapterId) (m : Registry) : Registry :=
  m.filter fun e => e.1 ≠ key

/-- Write through the reference `auto &info = mRadios[key]` of an existing
node. -/
def modify (key : AdapterId) (f : RadioInfo → RadioInfo) : Registry → Registry
  | [] => []
  | (k, v) :: rest =>
    if k = key then (k, f v) :: rest else (k, v) :: modify key f rest

end QMap

/-! ## Platform answers -/

/-- What the radios answer while one handler runs: `Radio::State()` and the
token returned by registering a `StateChanged` handler. -/
structure Platform where
  State : Radio → RadioState
  StateChanged : Radio → Nat

/-- What `await(op, result)` leaves behind: `none` is an operation that did
not complete (`await` returns false and `result` is untouched), `some v` one
that completed with result `v`. -/
def awaitInto {T : Type} (completed : Option T) (result : T) : Bool × T :=
  match completed with
  | some v => (true, v)
  | none => (false, result)

/-- The two asynchronous operations behind `getRadioFromAdapterId`:
`BluetoothAdapter::FromIdAsync` and `BluetoothAdapter::GetRadioAsync`, each
either not completing or completing with a possibly null object. -/
structure Resolution where
  FromIdAsync : Option (Option Adapter)
  GetRadioAsync : Adapter → Option (Option Radio)

/-- Result and trace of one handler. -/
structure Outcome (α : Type) where
  mRadios : Registry
  trace : List Event
  ret : α

namespace AdapterManager

/-- Constant `kMaximumAttempts`. -/
def kMaximumAttempts : Nat := 5

/-- Method `AdapterManager::getRadioFromAdapterId`. -/
def getRadioFromAdapterId (R : Resolution) : Option Radio :=
  let (res, a) := awaitInto R.FromIdAsync none
  match res, a with
  | true, some adapter =>
    let (res2, r) := awaitInto (R.GetRadioAsync adapter) none
    match res2, r with
    | true, some radio => some radio
    | _, _ => none
  | _, _ => none

/-- Method `AdapterManager::subscribeToStateChanges`: stores the token of the
new registration in the record.  Both callers pass a record whose handle they
have just set to a non-null `Radio`. -/
def subscribeToStateChanges (P : Platform) (info : RadioInfo) : RadioInfo × List Event :=
  match info.radio with
  | some r => ({ info with stateToken := P.StateChanged r }, [Event.subscribe r])
  | none => (info, [])

/-- Method `AdapterManager::unsubscribeFromStateChanges`. -/
def unsubscribeFromStateChanges (info : RadioInfo) : List Event :=
  match info.radio with
  | some r => [Event.unsubscribe r info.stateToken]
  | none => []

/-- Method `AdapterManager::addClient` for the client whose `mDeviceId` is
`adapterId`.  The result is `none` when the call dereferences a null `Radio`
(`radioInfo.radio.State()` on a record whose handle was cleared). -/
def addClient (mRadios : Registry) (adapterId : AdapterId) (P : Platform)
    (R : Resolution) (during : Registry → Registry) : Option (Outcome HostMode) :=
  if QMap.contains mRadios adapterId then
    let m1 := QMap.modify adapterId (fun i => { i with numClients := i.numClients + 1 }) mRadios
    match (QMap.get m1 adapterId).radio with
    | some r => some ⟨m1, [], modeFromWindowsBluetoothState (P.State r)⟩
    | none => none
  else
    match getRadioFromAdapterId R with
    | some r =>
      let m1 := during mRadios
      let info : RadioInfo := { radio := some r, numClients := 1, currentState := P.State r }
      let (info1, sub) := subscribeToStateChanges P info
      some ⟨QMap.insert adapterId info1 m1, Event.resolve adapterId :: sub,
        modeFromWindowsBluetoothState info1.currentState⟩
    | none =>
      some ⟨mRadios, [Event.resolve adapterId, Event.warning LogLine.failedToSubscribe],
        HostMode.HostPoweredOff⟩

/-- Method `AdapterManager::removeClient`. -/
def removeClient (mRadios : Registry) (adapterId : AdapterId) : Outcome Unit :=
  if QMap.contains mRadios adapterId then
    let m1 := QMap.modify adapterId (fun i => { i with numClients := i.numClients - 1 }) mRadios
    let radioInfo := QMap.get m1 adapterId
    if radioInfo.numClients = 0 then
      ⟨QMap.remove adapterId m1, unsubscribeFromStateChanges radioInfo, ()⟩
    else
      ⟨m1, [], ()⟩
  else
    ⟨mRadios, [Event.warning (LogLine.removingUnknownClient adapterId)], ()⟩

/-- Method `AdapterManager::updateMode`; `setState` is what awaiting
`radio.SetStateAsync(...)` yields. -/
def updateMode (mRadios : Registry) (adapterId : AdapterId) (mode : HostMode)
    (setState : Option RadioAccessStatus) : Outcome Unit :=
  if QMap.contains mRadios adapterId then
    match (QMap.get mRadios adapterId).radio with
    | some radio =>
      let (res, status) := awaitInto setState RadioAccessStatus.Unspecified
      let call := Event.setStateAsync radio (windowsStateFromMode mode)
      if !res || status ≠ RadioAccessStatus.Allowed then
        if status = RadioAccessStatus.DeniedBySystem then
          ⟨mRadios, [call, Event.warning LogLine.setStateAsyncFailed,
            Event.warning LogLine.checkPermissions], ()⟩
        else
          ⟨mRadios, [call, Event.warning LogLine.setStateAsyncFailed], ()⟩
      else
        ⟨mRadios, [call], ()⟩
    | none => ⟨mRadios, [], ()⟩
  else
    ⟨mRadios, [], ()⟩

/-- The loop of `AdapterManager::onStateChange` over `mRadios.keys()`. -/
def onStateChangeLoop (mRadios : Registry) (radio : Radio) (P : Platform) :
    List AdapterId → Outcome Unit
  | [] => ⟨mRadios, [], ()⟩
  | key :: rest =>
    let info := QMap.get mRadios key
    if info.radio = some radio then
      if info.currentState ≠ P.State radio then
        let m1 := QMap.modify key (fun i => { i with currentState := P.State radio }) mRadios
        ⟨m1, [Event.emit (Signal.modeChanged key
          (modeFromWindowsBluetoothState (QMap.get m1 key).currentState))], ()⟩
      else
        ⟨mRadios, [], ()⟩
    else
      onStateChangeLoop mRadios radio P rest

/-- Method `AdapterManager::onStateChange`. -/
def onStateChange (mRadios : Registry) (radio : Radio) (P : Platform) : Outcome Unit :=
  onStateChangeLoop mRadios radio P (QMap.keys mRadios)

/-- Method `AdapterManager::tryResubscribeToStateChanges`: one attempt. -/
def tryResubscribeToStateChanges (mRadios : Registry) (id : AdapterId) (numAttempts : Nat)
    (P : Platform) (R : Resolution) (during : Registry → Registry) : Outcome Unit :=
  if QMap.contains mRadios id then
    if (QMap.get mRadios id).radio ≠ none then
      ⟨mRadios, [], ()⟩
    else
      match getRadioFromAdapterId R with
      | some r =>
        let m1 := during mRadios
        if QMap.contains m1 id then
          let m2 := QMap.modify id
            (fun i => { i with radio := some r, currentState := P.State r }) m1
          let sub := subscribeToStateChanges P (QMap.get m2 id)
          let m3 := QMap.modify id (fun _ => sub.1) m2
          ⟨m3, Event.resolve id :: sub.2 ++ [Event.emit (Signal.modeChanged id
            (modeFromWindowsBluetoothState (QMap.get m3 id).currentState))], ()⟩
        else
          ⟨m1, [Event.resolve id], ()⟩
      | none =>
        if numAttempts + 1 < kMaximumAttempts then
          ⟨mRadios, [Event.resolve id, Event.debug LogLine.tryingToResubscribe,
            Event.singleShot 100 id (numAttempts + 1)], ()⟩
        else
          ⟨mRadios, [Event.resolve id,
            Event.warning (LogLine.failedToResubscribe (numAttempts + 1))], ()⟩
  else
    ⟨mRadios, [], ()⟩

/-- Method `AdapterManager::onAdapterAdded`: emits the signal and queues the
first resubscription attempt. -/
def onAdapterAdded (mRadios : Registry) (id : AdapterId) : Outcome Unit :=
  ⟨mRadios, [Event.emit (Signal.adapterAdded id), Event.invokeQueued id 0], ()⟩

/-- Method `AdapterManager::onAdapterRemoved`. -/
def onAdapterRemoved (mRadios : Registry) (id : AdapterId) : Outcome Unit :=
  if QMap.contains mRadios id then
    ⟨QMap.modify id (fun i => { i with radio := none }) mRadios,
      [Event.emit (Signal.adapterRemoved id)], ()⟩
  else
    ⟨mRadios, [Event.emit (Signal.adapterRemoved id)], ()⟩

/-! ## The retry chain driven by `QTimer::singleShot` -/

/-- What the surroundings do during a retry chain, per attempt (numbered by the
`numAttempts` argument of the attempt): the platform answers, the outcome of
the radio resolution, what other handlers do to the registry while the
attempt awaits a resolution after which it takes the mutex again, and what
they do to it between the last access of a failed attempt and the start of
the attempt its 100 ms timer fires. -/
structure RetryEnv where
  platform : Nat → Platform
  resolution : Nat → Resolution
  during : Nat → Registry → Registry
  between : Nat → Registry → Registry

/-- The attempts that follow from one call of `tryResubscribeToStateChanges`:
the call itself and, as long as a call arms the single-shot timer, the call
made by the timer's lambda. -/
def retryChain (E : RetryEnv) (mRadios : Registry) (id : AdapterId) (numAttempts : Nat) :
    Outcome Unit :=
  let o := tryResubscribeToStateChanges mRadios id numAttempts (E.platform numAttempts)
    (E.resolution numAttempts) (E.during numAttempts)
  match h : scheduledRetry o.trace with
  | none => o
  | some (id1, n1) =>
    let o1 := retryChain E (E.between numAttempts o.mRadios) id1 n1
    ⟨o1.mRadios, o.trace ++ o1.trace, ()⟩
termination_by kMaximumAttempts - numAttempts
decreasing_by
  have key : n1 = numAttempts + 1 ∧ numAttempts + 1 < kMaximumAttempts := by
    simp only [o, tryResubscribeToStateChanges, subscribeToStateChanges] at h
    repeat' split at h
    all_goals simp_all [scheduledRetry, List.findSome?]
  omega

/-- A record for `id` exists and holds no radio handle. -/
def Unplugged (id : AdapterId) (m : Registry) : Prop :=
  ∃ info, QMap.find m id = some info ∧ info.radio = none

/-- What the other handlers alone make of the registry over the `d` timer
waits that follow attempt `n`. -/
def ambient (E : RetryEnv) : Nat → Nat → Registry → Registry
  | _, 0, m => m
  | n, d + 1, m => ambient E (n + 1) d (E.between n m)

/-! ## Sequential client registration -/

/-- One call of a facade into the registry for a fixed adapter id: `addClient`
with the platform answers it meets, or `removeClient`. -/
inductive ClientCall where
  | add (P : Platform) (R : Resolution)
  | remove

/-- Runs one call to completion, with no other handler in between. -/
def runClientCall (adapterId : AdapterId) (mRadios : Registry) : ClientCall → Option Registry
  | ClientCall.add P R => (addClient mRadios adapterId P R id).map fun o => o.mRadios
  | ClientCall.remove => some (removeClient mRadios adapterId).mRadios

/-- Runs the calls one after another from a given registry. -/
def runClientCalls (adapterId : AdapterId) (mRadios : Registry) (calls : List ClientCall) :
    Option Registry :=
  calls.foldl (fun st c => st.bind fun m => runClientCall adapterId m c) (some mRadios)

/-- Number of `addClient` calls minus number of `removeClient` calls. -/
def balance : List ClientCall → Int
  | [] => 0
  | ClientCall.add _ _ :: rest => balance rest + 1
  | ClientCall.remove :: rest => balance rest - 1

/-- Whether the radio resolution of a call succeeds; `removeClient` resolves
nothing. -/
def resolutionSucceeds : ClientCall → Bool
  | ClientCall.add _ R => (getRadioFromAdapterId R).isSome
  | ClientCall.remove => true

/-- State of the record of `adapterId` when `b` clients are registered: absent
for `b = 0`, otherwise present with `numClients = b` and a live handle. -/
def Counted (adapterId : AdapterId) (m : Registry) (b : Int) : Prop :=
  (b = 0 ∧ QMap.find m adapterId = none) ∨
  (0 < b ∧ ∃ info, QMap.find m adapterId = some info ∧ info.numClients = b ∧
    ∃ r, info.radio = some r)

/-- The key at which the loop of `onStateChange` stops: the first key of
`mRadios.keys()` whose record holds the handle `radio`. -/
def owner (m : Registry) (radio : Radio) : Option AdapterId :=
  (QMap.keys m).find? fun key => decide ((QMap.get m key).radio = some radio)

/-- Every record present before and after keeps its `currentState`. -/
def KeepsCurrentState (m after : Registry) : Prop :=
  ∀ k info info1, QMap.find m k = some info → QMap.find after k = some info1 →
    info1.currentState = info.currentState

end AdapterManager

/-! ## The facade `QBluetoothLocalDevicePrivate` -/

/-- Modelled from the spec: the class `QBluetoothLocalDevicePrivate` is declared
in a header outside the sources; these are the members its mode handling
reads in the source file. -/
structure QBluetoothLocalDevicePrivate where
  mAdapter : Option Adapter
  mDeviceId : AdapterId
  mMode : HostMode
  deriving DecidableEq, Repr

/-- Method `QBluetoothLocalDevicePrivate::updateAdapterState`; `access` is what
awaiting `Radio::RequestAccessAsync()` yields.  The emitted `updateMode`
signal is connected to `AdapterManager::updateMode`. -/
def QBluetoothLocalDevicePrivate.updateAdapterState (d : QBluetoothLocalDevicePrivate)
    (mode : HostMode) (access : Option RadioAccessStatus) : List Event :=
  if d.mAdapter = none then
    [Event.warning LogLine.uninitializedAdapter]
  else
    let desiredMode := adjustHostMode mode
    if desiredMode ≠ d.mMode then
      let (res, status) := awaitInto access RadioAccessStatus.Unspecified
      if res && status = RadioAccessStatus.Allowed then
        [Event.requestAccessAsync, Event.emit (Signal.updateMode d.mDeviceId desiredMode)]
      else
        [Event.requestAccessAsync, Event.warning LogLine.operationDenied]
    else
      []

/-- Method `QBluetoothLocalDevicePrivate::isValid`. -/
def QBluetoothLocalDevicePrivate.isValid (d : QBluetoothLocalDevicePrivate) : Bool :=
  d.mAdapter.isSome

/-- Method `QBluetoothLocalDevicePrivate::radioModeChanged`, the slot connected
to `AdapterManager::modeChanged`. -/
def QBluetoothLocalDevicePrivate.radioModeChanged (d : QBluetoothLocalDevicePrivate)
    (id : AdapterId) (mode : HostMode) : QBluetoothLocalDevicePrivate × List Event :=
  if id = d.mDeviceId ∧ d.mAdapter.isSome then
    if mode ≠ d.mMode then
      ({ d with mMode := mode }, [Event.emit (Signal.hostModeStateChanged mode)])
    else (d, [])
  else (d, [])

/-- Constructor of `QBluetoothLocalDevicePrivate`.  `found` is the outcome of
its adapter lookup: the adapter stored in `mAdapter` with its `DeviceId()`, or
`none` when no adapter was found; only a facade with an adapter calls
`addClient`. -/
def QBluetoothLocalDevicePrivate.construct (mRadios : Registry)
    (found : Option (Adapter × AdapterId)) (P : Platform) (R : Resolution)
    (during : Registry → Registry) : Option (Registry × QBluetoothLocalDevicePrivate) :=
  match found with
  | some (adapter, deviceId) =>
    (AdapterManager.addClient mRadios deviceId P R during).map fun o =>
      (o.mRadios, ⟨some adapter, deviceId, o.ret⟩)
  | none => some (mRadios, ⟨none, "", HostMode.HostPoweredOff⟩)

/-- Destructor of `QBluetoothLocalDevicePrivate`. -/
def QBluetoothLocalDevicePrivate.destruct (mRadios : Registry)
    (d : QBluetoothLocalDevicePrivate) : Outcome Unit :=
  AdapterManager.removeClient mRadios d.mDeviceId

/-! ## The function `await` -/

/-- Enumeration `winrt::Windows::Foundation::AsyncStatus`. -/
inductive AsyncStatus where
  | Started
  | Completed
  | Canceled
  | Error
  deriving DecidableEq, Repr

/-- A pending `IAsyncOperation<T>` as `await` sees it: the status it reports at
the poll number `k` (counted from `0`) and the value of `GetResults()`. -/
structure IAsyncOperation (T : Type) where
  Status : Nat → AsyncStatus
  GetResults : T

/-- The condition of the do-while loop of `await` after poll number `k`:
`status == Started && (!timeout || !timer.hasExpired(timeout))`, where
`elapsed k` is the reading of the `QElapsedTimer` at that poll and
`hasExpired` compares it with the timeout. -/
def loopCondition {T : Type} (asyncInfo : IAsyncOperation T) (timeout : Nat)
    (elapsed : Nat → Nat) (k : Nat) : Bool :=
  decide (asyncInfo.Status k = AsyncStatus.Started) &&
    (timeout == 0 || !decide (elapsed k > timeout))

/-- The do-while loop of `await`, from poll number `k` on.  The result is the
number and the status of the last poll, or `none` when `steps` polls do not
end the loop. -/
def awaitLoop {T : Type} (asyncInfo : IAsyncOperation T) (timeout : Nat) (elapsed : Nat → Nat) :
    Nat → Nat → Option (Nat × AsyncStatus)
  | 0, _ => none
  | steps + 1, k =>
    let status := asyncInfo.Status k
    if loopCondition asyncInfo timeout elapsed k then
      awaitLoop asyncInfo timeout elapsed steps (k + 1)
    else some (k, status)

/-- Function `await`: the returned flag and the content of `result` afterwards,
or `none` when `steps` polls do not end the loop. -/
def await {T : Type} (asyncInfo : IAsyncOperation T) (result : T) (timeout : Nat)
    (elapsed : Nat → Nat) (steps : Nat) : Option (Bool × T) :=
  match awaitLoop asyncInfo timeout elapsed steps 0 with
  | none => none
  | some (_, status) =>
    if status = AsyncStatus.Completed then some (true, asyncInfo.GetResults)
    else some (false, result)

/-! ## Pairing -/

/-- Enumeration `winrt::Windows::Devices::Enumeration::DevicePairingProtectionLevel`. -/
inductive DevicePairingProtectionLevel where
  | Default
  | None
  | Encryption
  | EncryptionAndAuthentication
  deriving DecidableEq, Repr

/-- Enumeration `winrt::Windows::Devices::Enumeration::DevicePairingResultStatus`. -/
inductive DevicePairingResultStatus where
  | Paired
  | NotReadyToPair
  | NotPaired
  | AlreadyPaired
  | ConnectionRejected
  | TooManyConnections
  | HardwareFailure
  | AuthenticationTimeout
  | AuthenticationNotAllowed
  | AuthenticationFailure
  | NoSupportedProfiles
  | ProtectionLevelCouldNotBeMet
  | AccessDenied
  | InvalidCeremonyData
  | PairingCanceled
  | OperationAlreadyInProgress
  | RequiredHandlerNotRegistered
  | RejectedByHandler
  | RemoteDeviceHasAssociation
  | Failed
  deriving DecidableEq, Repr

/-- Enumeration `winrt::Windows::Devices::Enumeration::DeviceUnpairingResultStatus`. -/
inductive DeviceUnpairingResultStatus where
  | Unpaired
  | AlreadyUnpaired
  | OperationAlreadyInProgress
  | AccessDenied
  | Failed
  deriving DecidableEq, Repr

/-- A non-null `DeviceInformationPairing`: the remote device it belongs to and
what its `IsPaired()` and `ProtectionLevel()` answer. -/
structure DeviceInformationPairing where
  device : Nat
  IsPaired : Bool
  ProtectionLevel : DevicePairingProtectionLevel
  deriving DecidableEq, Repr

/-- What the two awaited lookups of `pairingInfoFromAddress` yield:
`BluetoothDevice::FromBluetoothAddressAsync` and
`BluetoothLEDevice::FromBluetoothAddressAsync`, each not completing within
5000 ms (`none`), completing with a null device (`some none`), or completing
with a device whose `DeviceInformation().Pairing()` is given. -/
structure PairingLookup where
  classic : Option (Option DeviceInformationPairing)
  le : Option (Option DeviceInformationPairing)

/-- Function `pairingInfoFromAddress`, with the lookups it issued. -/
def pairingInfoFromAddress (address : Nat) (L : PairingLookup) :
    Option DeviceInformationPairing × List Event :=
  let (res, device) := awaitInto L.classic none
  match res, device with
  | true, some pairing => (some pairing, [Event.fromBluetoothAddressAsync address])
  | _, _ =>
    let (res2, leDevice) := awaitInto L.le none
    match res2, leDevice with
    | true, some pairing =>
      (some pairing, [Event.fromBluetoothAddressAsync address,
        Event.leFromBluetoothAddressAsync address])
    | _, _ =>
      (none, [Event.fromBluetoothAddressAsync address,
        Event.leFromBluetoothAddressAsync address])

/-- Method `PairingWorker::pairAsync`.  `q` tells whether the `QPointer` to the
facade is still valid; `pairOutcome` and `unpairOutcome` are what awaiting
`PairAsync` (30000 ms) and `UnpairAsync` (10000 ms) yields, `none` for a call
that did not complete in time.  The result is `none` when the method calls
`Custom()` or `UnpairAsync()` on a null `pairingInfo`. -/
def PairingWorker.pairAsync (q : Bool) (addr : Nat) (pairing : Pairing) (L : PairingLookup)
    (pairOutcome : Option DevicePairingResultStatus)
    (unpairOutcome : Option DeviceUnpairingResultStatus) : Option (List Event) :=
  let (pairingInfo, lookups) := pairingInfoFromAddress addr L
  match pairing with
  | Pairing.Unpaired =>
    match pairingInfo with
    | none => none
    | some info =>
      let (res, unpairingResult) := awaitInto (unpairOutcome.map some) none
      if !res || unpairingResult ≠ some DeviceUnpairingResultStatus.Unpaired then
        some (lookups ++ [Event.unpairAsync info.device] ++
          (if q then [Event.emit (Signal.errorOccurred Error.PairingError)] else []))
      else
        some (lookups ++ [Event.unpairAsync info.device] ++
          (if q then [Event.emit (Signal.pairingFinished addr pairing)] else []))
  | _ =>
    match pairingInfo with
    | none => none
    | some info =>
      let (res, result) := awaitInto (pairOutcome.map some) none
      let calls := [Event.pairingRequestedAdd info.device, Event.pairAsync info.device,
        Event.pairingRequestedRemove info.device]
      if !res || result ≠ some DevicePairingResultStatus.Paired then
        some (lookups ++ calls ++
          (if q then [Event.emit (Signal.errorOccurred Error.PairingError)] else []))
      else
        some (lookups ++ calls ++
          (if q then [Event.emit (Signal.pairingFinished addr pairing)] else []))

/-- Method `QBluetoothLocalDevice::pairingStatus`, with the lookups it issued;
an address is null when it is `0`. -/
def QBluetoothLocalDevice.pairingStatus (d : QBluetoothLocalDevicePrivate) (address : Nat)
    (L : PairingLookup) : Pairing × List Event :=
  if !d.isValid || address = 0 then (Pairing.Unpaired, [])
  else
    let (pairingInfo, lookups) := pairingInfoFromAddress address L
    match pairingInfo with
    | none => (Pairing.Unpaired, lookups)
    | some info =>
      if !info.IsPaired then (Pairing.Unpaired, lookups)
      else if info.ProtectionLevel = DevicePairingProtectionLevel.Encryption
          ∨ info.ProtectionLevel = DevicePairingProtectionLevel.EncryptionAndAuthentication then
        (Pairing.AuthorizedPaired, lookups)
      else (Pairing.Paired, lookups)

/-- Method `QBluetoothLocalDevice::requestPairing`.  `statusLookup` answers the
lookups of `pairingStatus`, `workerLookup` those of the pairing worker. -/
def QBluetoothLocalDevice.requestPairing (d : QBluetoothLocalDevicePrivate) (address : Nat)
    (pairing : Pairing) (statusLookup workerLookup : PairingLookup)
    (pairOutcome : Option DevicePairingResultStatus)
    (unpairOutcome : Option DeviceUnpairingResultStatus) : Option (List Event) :=
  if !d.isValid || address = 0 then
    some [Event.emitQueued (Signal.errorOccurred Error.PairingError)]
  else
    let (status, lookups) := QBluetoothLocalDevice.pairingStatus d address statusLookup
    if status = pairing then
      some (lookups ++ [Event.emitQueued (Signal.pairingFinished address pairing)])
    else
      (PairingWorker.pairAsync true address pairing workerLookup pairOutcome unpairOutcome).map
        fun t => lookups ++ t

/-- The signals a trace emits directly or posts through a queued
`QMetaObject::invokeMethod`, in order. -/
def notificationsOf (trace : List Event) : List Signal :=
  trace.filterMap fun e => match e with
    | Event.emit s => some s
    | Event.emitQueued s => some s
    | _ => none

/-- Whether an event is a pair or unpair call on the platform, or the
registration of the confirmation handler that precedes a pair call. -/
def isPairingCall : Event → Bool
  | Event.pairingRequestedAdd _ => true
  | Event.pairAsync _ => true
  | Event.pairingRequestedRemove _ => true
  | Event.unpairAsync _ => true
  | _ => false

/-! ## The mutex `mRadiosMutex` -/

/-- What a handler does with `mRadiosMutex`, and where it suspends: `lock` is
the constructor of the `QMutexLocker` or `relock()`, `unlock` is `unlock()` or
the destructor of a locker that holds the mutex, `suspend` is one call of
`await`. -/
inductive MutexStep where
  | lock
  | unlock
  | suspend
  deriving DecidableEq, Repr

namespace AdapterManager

/-- The calls of `await` in `getRadioFromAdapterId`: the second one is made
only when the first yields a non-null adapter. -/
def getRadioFromAdapterIdSteps (R : Resolution) : List MutexStep :=
  match awaitInto R.FromIdAsync none with
  | (true, some _) => [MutexStep.suspend, MutexStep.suspend]
  | _ => [MutexStep.suspend]

/-- The mutex statements and suspensions of `addClient` in execution order, on
the branches of `addClient`. -/
def addClientSteps (mRadios : Registry) (adapterId : AdapterId) (R : Resolution) :
    List MutexStep :=
  if QMap.contains mRadios adapterId then
    [MutexStep.lock, MutexStep.unlock]
  else
    [MutexStep.lock, MutexStep.unlock] ++ getRadioFromAdapterIdSteps R ++
      (match getRadioFromAdapterId R with
        | some _ => [MutexStep.lock, MutexStep.unlock]
        | none => [])

/-- The mutex statements and suspensions of `updateMode` in execution order. -/
def updateModeSteps (mRadios : Registry) (adapterId : AdapterId) : List MutexStep :=
  if QMap.contains mRadios adapterId then
    match (QMap.get mRadios adapterId).radio with
    | some _ => [MutexStep.lock, MutexStep.unlock, MutexStep.suspend]
    | none => [MutexStep.lock, MutexStep.unlock]
  else
    [MutexStep.lock, MutexStep.unlock]

/-- The mutex statements and suspensions of `tryResubscribeToStateChanges` in
execution order. -/
def tryResubscribeToStateChangesSteps (mRadios : Registry) (id : AdapterId)
    (R : Resolution) : List MutexStep :=
  if QMap.contains mRadios id then
    if (QMap.get mRadios id).radio ≠ none then
      [MutexStep.lock, MutexStep.unlock]
    else
      [MutexStep.lock, MutexStep.unlock] ++ getRadioFromAdapterIdSteps R ++
        (match getRadioFromAdapterId R with
          | some _ => [MutexStep.lock, MutexStep.unlock]
          | none => [])
  else
    [MutexStep.lock, MutexStep.unlock]

/-- Runs the steps from a mutex that this handler holds (`held`) or not: the
result is `some` of the final state when every `lock` found the mutex free for
this handler, every `unlock` found it held and every `suspend` found it
released, `none` otherwise. -/
def runMutex : Bool → List MutexStep → Option Bool
  | held, [] => some held
  | held, MutexStep.lock :: rest => if held then none else runMutex true rest
  | held, MutexStep.unlock :: rest => if held then runMutex false rest else none
  | held, MutexStep.suspend :: rest => if held then none else runMutex false rest

end AdapterManager

/-! ## Concrete inputs used to exercise the theorems -/

/-- A platform on which every radio reports `On` and registration of a handler
on radio `r` returns the token `r + 100`. -/
def platformOn : Platform := ⟨fun _ => RadioState.On, fun r => r + 100⟩

/-- A platform on which every radio reports `Off`. -/
def platformOff : Platform := ⟨fun _ => RadioState.Off, fun r => r + 100⟩

/-- A resolution that yields adapter `1` and its radio `7`. -/
def resolvesTo7 : Resolution := ⟨some (some 1), fun _ => some (some 7)⟩

/-- A resolution whose `FromIdAsync` does not complete. -/
def resolvesNot : Resolution := ⟨none, fun _ => none⟩

/-- Two clients register, then both deregister. -/
def twoClients : List AdapterManager.ClientCall :=
  [AdapterManager.ClientCall.add platformOn resolvesTo7,
   AdapterManager.ClientCall.add platformOn resolvesTo7,
   AdapterManager.ClientCall.remove,
   AdapterManager.ClientCall.remove]

/-- A registry whose record of `adapter-1` has one client, a live handle and
the stored state `Off`. -/
def staleRegistry : Registry := [("adapter-1", ⟨some 7, 107, 1, RadioState.Off⟩)]

/-- A registry whose record of `adapter-1` has two clients and a live handle
subscribed under token `107`. -/
def sharedRegistry : Registry := [("adapter-1", ⟨some 7, 107, 2, RadioState.On⟩)]

/-- A registry whose record of `adapter-1` lost its handle to an
adapter-removed event. -/
def unpluggedRegistry : Registry := [("adapter-1", ⟨none, 107, 2, RadioState.On⟩)]

/-- Surroundings of a retry chain in which every resolution fails and no other
handler touches the registry. -/
def neverResolves : AdapterManager.RetryEnv :=
  ⟨fun _ => platformOn, fun _ => resolvesNot, fun _ => id, fun _ => id⟩

/-- A platform on which every radio reports `Disabled`. -/
def platformDisabled : Platform := ⟨fun _ => RadioState.Disabled, fun r => r + 100⟩

/-- A remote device that is paired with encryption. -/
def pairedDevice : DeviceInformationPairing :=
  ⟨3, true, DevicePairingProtectionLevel.Encryption⟩

/-- The classic lookup finds `pairedDevice`. -/
def lookupFinds : PairingLookup := ⟨some (some pairedDevice), none⟩

/-- The classic lookup times out and the low-energy lookup yields no device. -/
def lookupFails : PairingLookup := ⟨none, some none⟩

/-- A facade of `adapter-1` with a valid adapter. -/
def validFacade : QBluetoothLocalDevicePrivate := ⟨some 1, "adapter-1", HostMode.HostPoweredOff⟩

/-- An operation that reports `Started` twice and then `Completed` with the
result `42`. -/
def completesAtThirdPoll : IAsyncOperation Nat :=
  ⟨fun k => if k < 2 then AsyncStatus.Started else AsyncStatus.Completed, 42⟩

/-- An operation that never leaves `Started`. -/
def neverCompletes : IAsyncOperation Nat := ⟨fun _ => AsyncStatus.Started, 42⟩

/-- A timer that advances 10 ms per poll. -/
def tenPerPoll : Nat → Nat := fun k => 10 * k

/-- The registry after a second `addClient` for the same id ran to completion
on the registry `m` (left as it is when that call faults). -/
def otherClientRegisters (m : Registry) : Registry :=
  ((AdapterManager.addClient m "adapter-1" platformOn resolvesTo7 id).map
    fun o => o.mRadios).getD m

/-! # Theorems -/

/-! ## Lemmas on the registry -/

namespace QMap

theorem find_modify_self (key : AdapterId) (f : RadioInfo → RadioInfo) (m : Registry) :
    find (modify key f m) key = (find m key).map f := by
  induction m with
  | nil => rfl
  | cons e rest ih =>
    obtain ⟨k, v⟩ := e
    by_cases hk : k = key
    · simp [modify, find, hk]
    · simp [modify, find, hk, ih]

theorem find_modify_ne (key other : AdapterId) (f : RadioInfo → RadioInfo) (m : Registry)
    (hne : other ≠ key) : find (modify key f m) other = find m other := by
  have hne2 : ¬ key = other := fun h => hne h.symm
  induction m with
  | nil => rfl
  | cons e rest ih =>
    obtain ⟨k, v⟩ := e
    by_cases hk : k = key
    · subst hk
      simp [modify, find, hne2]
    · by_cases hko : k = other
      · subst hko
        simp [modify, find, hk]
      · simp [modify, find, hk, hko, ih]

theorem keys_modify (key : AdapterId) (f : RadioInfo → RadioInfo) (m : Registry) :
    keys (modify key f m) = keys m := by
  induction m with
  | nil => rfl
  | cons e rest ih =>
    obtain ⟨k, v⟩ := e
    by_cases hk : k = key
    · simp [modify, keys, hk]
    · simp only [modify, hk, if_false, keys, List.map_cons] at ih ⊢
      rw [ih]

theorem find_insert_self (key : AdapterId) (value : RadioInfo) (m : Registry) :
    find (insert key value m) key = some value := by
  induction m with
  | nil => simp [insert, find]
  | cons e rest ih =>
    obtain ⟨k, v⟩ := e
    by_cases hlt : hstringLt key k = true
    · simp [insert, find, hlt]
    · by_cases hk : key = k
      · subst hk
        simp [insert, find, hlt]
      · have hk2 : ¬ k = key := fun h => hk h.symm
        simp [insert, find, hlt, hk, hk2, ih]

theorem find_insert_ne (key other : AdapterId) (value : RadioInfo) (m : Registry)
    (hne : other ≠ key) : find (insert key value m) other = find m other := by
  have hne2 : ¬ key = other := fun h => hne h.symm
  induction m with
  | nil => simp [insert, find, hne2]
  | cons e rest ih =>
    obtain ⟨k, v⟩ := e
    by_cases hlt : hstringLt key k = true
    · simp [insert, find, hlt, hne2]
    · by_cases hk : key = k
      · subst hk
        simp [insert, find, hlt, hne2]
      · by_cases hko : k = other
        · subst hko
          simp [insert, find, hlt, hk]
        · simp [insert, find, hlt, hk, hko, ih]

theorem find_remove_self (key : AdapterId) (m : Registry) :
    find (remove key m) key = none := by
  induction m with
  | nil => rfl
  | cons e rest ih =>
    obtain ⟨k, v⟩ := e
    by_cases hk : k = key
    · simpa [remove, hk] using ih
    · simpa [remove, find, hk] using ih

theorem find_remove_ne (key other : AdapterId) (m : Registry) (hne : other ≠ key) :
    find (remove key m) other = find m other := by
  have hne2 : ¬ key = other := fun h => hne h.symm
  induction m with
  | nil => rfl
  | cons e rest ih =>
    obtain ⟨k, v⟩ := e
    by_cases hk : k = key
    · subst hk
      simpa [remove, find, hne2] using ih
    · by_cases hko : k = other
      · subst hko
        simp [remove, find, hk]
      · simpa [remove, find, hk, hko] using ih

theorem contains_eq_true_iff (m : Registry) (key : AdapterId) :
    contains m key = true ↔ ∃ info, find m key = some info := by
  simp [contains, Option.isSome_iff_exists]

theorem contains_eq_false_iff (m : Registry) (key : AdapterId) :
    contains m key = false ↔ find m key = none := by
  simp [contains]

theorem get_of_find {m : Registry} {key : AdapterId} {info : RadioInfo}
    (h : find m key = some info) : get m key = info := by
  simp [get, h]

end QMap

/-! ## Lemmas on `addClient` and `removeClient` -/

namespace AdapterManager

theorem addClient_existing (m : Registry) (adapterId : AdapterId) (P : Platform)
    (R : Resolution) (during : Registry → Registry) (info : RadioInfo) (r : Radio)
    (hfind : QMap.find m adapterId = some info) (hradio : info.radio = some r) :
    addClient m adapterId P R during =
      some ⟨QMap.modify adapterId (fun i => { i with numClients := i.numClients + 1 }) m, [],
        modeFromWindowsBluetoothState (P.State r)⟩ := by
  have hc : QMap.contains m adapterId = true := (QMap.contains_eq_true_iff m adapterId).2 ⟨info, hfind⟩
  simp [addClient, hc, QMap.get, QMap.find_modify_self, hfind, hradio]

theorem addClient_cleared (m : Registry) (adapterId : AdapterId) (P : Platform)
    (R : Resolution) (during : Registry → Registry) (info : RadioInfo)
    (hfind : QMap.find m adapterId = some info) (hradio : info.radio = none) :
    addClient m adapterId P R during = none := by
  have hc : QMap.contains m adapterId = true := (QMap.contains_eq_true_iff m adapterId).2 ⟨info, hfind⟩
  simp [addClient, hc, QMap.get, QMap.find_modify_self, hfind, hradio]

theorem addClient_new (m : Registry) (adapterId : AdapterId) (P : Platform)
    (R : Resolution) (during : Registry → Registry) (r : Radio)
    (hfind : QMap.find m adapterId = none) (hres : getRadioFromAdapterId R = some r) :
    addClient m adapterId P R during =
      some ⟨QMap.insert adapterId
          { radio := some r, stateToken := P.StateChanged r, numClients := 1,
            currentState := P.State r } (during m),
        [Event.resolve adapterId, Event.subscribe r],
        modeFromWindowsBluetoothState (P.State r)⟩ := by
  have hc : QMap.contains m adapterId = false := (QMap.contains_eq_false_iff m adapterId).2 hfind
  simp [addClient, hc, hres, subscribeToStateChanges]

theorem addClient_unresolved (m : Registry) (adapterId : AdapterId) (P : Platform)
    (R : Resolution) (during : Registry → Registry)
    (hfind : QMap.find m adapterId = none) (hres : getRadioFromAdapterId R = none) :
    addClient m adapterId P R during =
      some ⟨m, [Event.resolve adapterId, Event.warning LogLine.failedToSubscribe],
        HostMode.HostPoweredOff⟩ := by
  have hc : QMap.contains m adapterId = false := (QMap.contains_eq_false_iff m adapterId).2 hfind
  simp [addClient, hc, hres]

theorem removeClient_last (m : Registry) (adapterId : AdapterId) (info : RadioInfo)
    (hfind : QMap.find m adapterId = some info) (hone : info.numClients = 1) :
    QMap.find (removeClient m adapterId).mRadios adapterId = none := by
  have hc : QMap.contains m adapterId = true := (QMap.contains_eq_true_iff m adapterId).2 ⟨info, hfind⟩
  simp [removeClient, hc, QMap.get, QMap.find_modify_self, hfind, hone, QMap.find_remove_self]

theorem removeClient_more (m : Registry) (adapterId : AdapterId) (info : RadioInfo)
    (hfind : QMap.find m adapterId = some info) (hone : info.numClients ≠ 1) :
    QMap.find (removeClient m adapterId).mRadios adapterId =
      some { info with numClients := info.numClients - 1 } := by
  have hc : QMap.contains m adapterId = true := (QMap.contains_eq_true_iff m adapterId).2 ⟨info, hfind⟩
  have hne : ¬ info.numClients - 1 = 0 := by omega
  simp [removeClient, hc, QMap.get, QMap.find_modify_self, hfind, hne]

theorem balance_append_singleton (cs : List ClientCall) (c : ClientCall) :
    balance (cs ++ [c]) = balance cs + balance [c] := by
  induction cs with
  | nil => simp [balance]
  | cons d rest ih =>
    cases d with
    | add P R => rw [List.cons_append]; simp only [balance]; rw [ih]; omega
    | remove => rw [List.cons_append]; simp only [balance]; rw [ih]; omega

theorem runClientCalls_append_singleton (adapterId : AdapterId) (m : Registry)
    (cs : List ClientCall) (c : ClientCall) :
    runClientCalls adapterId m (cs ++ [c]) =
      (runClientCalls adapterId m cs).bind fun m1 => runClientCall adapterId m1 c := by
  simp [runClientCalls, List.foldl_append]

theorem runClientCalls_counted (adapterId : AdapterId) (calls : List ClientCall)
    (hres : ∀ c ∈ calls, resolutionSucceeds c = true)
    (hbal : ∀ n, 0 ≤ balance (calls.take n)) :
    ∃ m, runClientCalls adapterId [] calls = some m ∧ Counted adapterId m (balance calls) := by
  induction calls using List.reverseRecOn with
  | nil => exact ⟨[], rfl, Or.inl ⟨rfl, rfl⟩⟩
  | append_singleton cs c ih =>
    have hres1 : ∀ d ∈ cs, resolutionSucceeds d = true := fun d hd =>
      hres d (List.mem_append_left _ hd)
    have hbal1 : ∀ n, 0 ≤ balance (cs.take n) := by
      intro n
      rcases Nat.le_total n cs.length with hn | hn
      · have h := hbal n
        rwa [List.take_append_of_le_length hn] at h
      · have h := hbal cs.length
        rw [List.take_append_of_le_length (Nat.le_refl _), List.take_length] at h
        rwa [List.take_of_length_le hn]
    obtain ⟨m, hrun, hinv⟩ := ih hres1 hbal1
    have htot : 0 ≤ balance (cs ++ [c]) := by
      have h := hbal (cs ++ [c]).length
      rwa [List.take_length] at h
    rw [runClientCalls_append_singleton, hrun, balance_append_singleton] at *
    simp only [Option.some_bind]
    have hc := hres c (by simp)
    cases c with
    | add P R =>
      simp only [resolutionSucceeds, Option.isSome_iff_exists] at hc
      obtain ⟨r, hr⟩ := hc
      rcases hinv with ⟨hb, hnone⟩ | ⟨hb, info, hfind, hnum, r0, hr0⟩
      · refine ⟨QMap.insert adapterId
          { radio := some r, stateToken := P.StateChanged r, numClients := 1,
            currentState := P.State r } m, ?_,
          Or.inr ⟨?_, (⟨some r, P.StateChanged r, 1, P.State r⟩ : RadioInfo),
            QMap.find_insert_self _ _ _, ?_, r, rfl⟩⟩
        · simp [runClientCall, addClient_new m adapterId P R id r hnone hr]
        · simp only [balance]; omega
        · simp only [balance]; omega
      · refine ⟨QMap.modify adapterId (fun i => { i with numClients := i.numClients + 1 }) m,
          ?_, Or.inr ⟨?_, ({ info with numClients := info.numClients + 1 } : RadioInfo),
            ?_, ?_, r0, hr0⟩⟩
        · simp [runClientCall, addClient_existing m adapterId P R id info r0 hfind hr0]
        · simp only [balance]; omega
        · rw [QMap.find_modify_self, hfind]; rfl
        · simp [balance, hnum]
    | remove =>
      have hpos : 0 < balance cs := by simp [balance] at htot; omega
      rcases hinv with ⟨hb, _⟩ | ⟨hb, info, hfind, hnum, r0, hr0⟩
      · omega
      · by_cases hone : info.numClients = 1
        · refine ⟨(removeClient m adapterId).mRadios, rfl, Or.inl ⟨?_, ?_⟩⟩
          · simp only [balance]; omega
          · exact removeClient_last m adapterId info hfind hone
        · refine ⟨(removeClient m adapterId).mRadios, rfl, Or.inr ⟨?_,
            ({ info with numClients := info.numClients - 1 } : RadioInfo),
            removeClient_more m adapterId info hfind hone, ?_, r0, hr0⟩⟩
          · simp only [balance]; omega
          · simp only [balance]; omega

/-- C1: for every sequence of `addClient`/`removeClient` calls for one adapter
id, run one after another from the empty registry with every radio resolution
succeeding and no initial segment holding more removes than adds, after each
call (after the first `n` calls, for every `n`) the calls all returned, the
record's `numClients` equals adds minus removes so far, and the record is
absent from `mRadios` exactly when that number is zero. -/
theorem C1_numClients_is_adds_minus_removes (adapterId : AdapterId)
    (calls : List ClientCall)
    (hres : ∀ c ∈ calls, resolutionSucceeds c = true)
    (hbal : ∀ n, 0 ≤ balance (calls.take n)) (n : Nat) :
    ∃ m, runClientCalls adapterId [] (calls.take n) = some m ∧
      (∀ info, QMap.find m adapterId = some info →
        info.numClients = balance (calls.take n)) ∧
      (QMap.find m adapterId = none ↔ balance (calls.take n) = 0) := by
  have hres1 : ∀ c ∈ calls.take n, resolutionSucceeds c = true := fun c hc =>
    hres c (List.mem_of_mem_take hc)
  have hbal1 : ∀ k, 0 ≤ balance ((calls.take n).take k) := by
    intro k
    rw [List.take_take]
    exact hbal _
  obtain ⟨m, hrun, hinv⟩ := runClientCalls_counted adapterId (calls.take n) hres1 hbal1
  refine ⟨m, hrun, ?_, ?_⟩
  · intro info hfind
    rcases hinv with ⟨_, hnone⟩ | ⟨_, info1, hfind1, hnum, _⟩
    · rw [hnone] at hfind; cases hfind
    · rw [hfind1] at hfind; cases hfind; exact hnum
  · rcases hinv with ⟨hb, hnone⟩ | ⟨hb, info1, hfind1, _, _⟩
    · exact ⟨fun _ => hb, fun _ => hnone⟩
    · constructor
      · intro h; rw [hfind1] at h; cases h
      · intro h; omega

theorem twoClients_balanced (n : Nat) : 0 ≤ balance (twoClients.take n) := by
  rcases n with _ | _ | _ | _ | _ | n <;> simp [twoClients, balance]

/-- Witness of C1: two clients register and deregister; after three of the
four calls one client is left. -/
theorem C1_numClients_is_adds_minus_removes_witness :
    (∀ c ∈ twoClients, resolutionSucceeds c = true) ∧
    (∀ n, 0 ≤ balance (twoClients.take n)) ∧
    ∃ m, runClientCalls "adapter-1" [] (twoClients.take 3) = some m ∧
      (∀ info, QMap.find m "adapter-1" = some info →
        info.numClients = balance (twoClients.take 3)) ∧
      (QMap.find m "adapter-1" = none ↔ balance (twoClients.take 3) = 0) :=
  ⟨by decide, twoClients_balanced,
    C1_numClients_is_adds_minus_removes "adapter-1" twoClients (by decide)
      twoClients_balanced 3⟩

/-- C2, counterexample: the record of `adapter-1` stores `Off` while its live
radio reports `On`; `addClient` returns `HostConnectable`, not the projection
`HostPoweredOff` of the stored `currentState`. -/
theorem C2_counterexample_returns_live_state :
    QMap.find staleRegistry "adapter-1" = some ⟨some 7, 107, 1, RadioState.Off⟩ ∧
    (addClient staleRegistry "adapter-1" platformOn resolvesTo7 id).map (fun o => o.ret)
      = some HostMode.HostConnectable ∧
    modeFromWindowsBluetoothState RadioState.Off = HostMode.HostPoweredOff := by
  decide

/-- C2, amended: when the registry holds a record for the adapter id whose
radio handle is live, `addClient` returns at once (no resolution, no event),
increments that record's `numClients` by one, changes nothing else in the
registry, and returns the projection of the state the radio reports at that
moment; that is the projection of the stored `currentState` whenever the
stored state is the reported one. -/
theorem C2_addClient_existing_live_record (m : Registry) (adapterId : AdapterId)
    (P : Platform) (R : Resolution) (during : Registry → Registry)
    (info : RadioInfo) (r : Radio)
    (hfind : QMap.find m adapterId = some info) (hradio : info.radio = some r) :
    ∃ o, addClient m adapterId P R during = some o ∧
      o.trace = [] ∧
      QMap.find o.mRadios adapterId = some { info with numClients := info.numClients + 1 } ∧
      (∀ k, k ≠ adapterId → QMap.find o.mRadios k = QMap.find m k) ∧
      QMap.keys o.mRadios = QMap.keys m ∧
      o.ret = modeFromWindowsBluetoothState (P.State r) ∧
      (info.currentState = P.State r →
        o.ret = modeFromWindowsBluetoothState info.currentState) := by
  refine ⟨_, addClient_existing m adapterId P R during info r hfind hradio, rfl, ?_, ?_, ?_,
    rfl, ?_⟩
  · rw [QMap.find_modify_self, hfind]; rfl
  · intro k hk
    exact QMap.find_modify_ne adapterId k _ m hk
  · exact QMap.keys_modify _ _ _
  · intro h
    rw [h]

/-- Witness of C2 (amended): a third client registers on a record with two
clients. -/
theorem C2_addClient_existing_live_record_witness :
    ∃ o, addClient sharedRegistry "adapter-1" platformOn resolvesNot id = some o ∧
      o.trace = [] ∧
      QMap.find o.mRadios "adapter-1" = some ⟨some 7, 107, 2 + 1, RadioState.On⟩ ∧
      (∀ k, k ≠ "adapter-1" → QMap.find o.mRadios k = QMap.find sharedRegistry k) ∧
      QMap.keys o.mRadios = QMap.keys sharedRegistry ∧
      o.ret = modeFromWindowsBluetoothState (platformOn.State 7) ∧
      (RadioState.On = platformOn.State 7 →
        o.ret = modeFromWindowsBluetoothState RadioState.On) :=
  C2_addClient_existing_live_record sharedRegistry "adapter-1" platformOn resolvesNot id
    ⟨some 7, 107, 2, RadioState.On⟩ 7 (by decide) rfl

/-- On a record whose handle was cleared by an adapter-removed event,
`addClient` calls `State()` on the null `Radio` and does not return. -/
theorem addClient_unplugged_faults :
    (addClient unpluggedRegistry "adapter-1" platformOn resolvesTo7 id).isNone = true := by
  decide

/-- C3: when the registry holds no record for the adapter id, a successful
radio resolution makes `addClient` insert a record with `numClients = 1`, the
resolved handle, the token of the new subscription and `currentState` equal to
the observed radio state, leaving every other record as it is, and return the
projection of that state (`HostConnectable` when the radio is `On`); a failed
resolution makes it return `HostPoweredOff` with the registry exactly as it
was. -/
theorem C3_addClient_new_record (m : Registry) (adapterId : AdapterId)
    (P : Platform) (R : Resolution) (during : Registry → Registry)
    (hfind : QMap.find m adapterId = none) :
    (∀ r, getRadioFromAdapterId R = some r →
      ∃ o, addClient m adapterId P R during = some o ∧
        QMap.find o.mRadios adapterId = some ⟨some r, P.StateChanged r, 1, P.State r⟩ ∧
        (∀ k, k ≠ adapterId → QMap.find o.mRadios k = QMap.find (during m) k) ∧
        o.trace = [Event.resolve adapterId, Event.subscribe r] ∧
        o.ret = modeFromWindowsBluetoothState (P.State r) ∧
        (P.State r = RadioState.On → o.ret = HostMode.HostConnectable)) ∧
    (getRadioFromAdapterId R = none →
      ∃ o, addClient m adapterId P R during = some o ∧
        o.ret = HostMode.HostPoweredOff ∧ o.mRadios = m ∧
        QMap.find o.mRadios adapterId = none ∧ signalsOf o.trace = []) := by
  constructor
  · intro r hres
    refine ⟨_, addClient_new m adapterId P R during r hfind hres, ?_, ?_, rfl, rfl, ?_⟩
    · exact QMap.find_insert_self _ _ _
    · intro k hk
      exact QMap.find_insert_ne adapterId k _ _ hk
    · intro hon
      simp [modeFromWindowsBluetoothState, hon]
  · intro hres
    exact ⟨_, addClient_unresolved m adapterId P R during hfind hres, rfl, rfl, hfind, rfl⟩

/-- Witness of C3: `addClient` for `adapter-1` on the empty registry with a
resolution that yields radio `7`. -/
theorem C3_addClient_new_record_witness :
    QMap.find [] "adapter-1" = none ∧ getRadioFromAdapterId resolvesTo7 = some 7 ∧
    ∃ o, addClient [] "adapter-1" platformOn resolvesTo7 id = some o ∧
      QMap.find o.mRadios "adapter-1" = some ⟨some 7, platformOn.StateChanged 7, 1,
        platformOn.State 7⟩ ∧
      (∀ k, k ≠ "adapter-1" → QMap.find o.mRadios k = QMap.find (id []) k) ∧
      o.trace = [Event.resolve "adapter-1", Event.subscribe 7] ∧
      o.ret = modeFromWindowsBluetoothState (platformOn.State 7) ∧
      (platformOn.State 7 = RadioState.On → o.ret = HostMode.HostConnectable) :=
  ⟨rfl, by decide,
    (C3_addClient_new_record [] "adapter-1" platformOn resolvesTo7 id rfl).1 7 (by decide)⟩

/-- C4, counterexample: the record of `adapter-1` is subscribed under token
`107`; after `onAdapterRemoved` the handle is null but the record still stores
token `107`, not the default token `0`, and no unsubscription was made. -/
theorem C4_counterexample_token_kept :
    QMap.find sharedRegistry "adapter-1" = some ⟨some 7, 107, 2, RadioState.On⟩ ∧
    QMap.find (onAdapterRemoved sharedRegistry "adapter-1").mRadios "adapter-1"
      = some ⟨none, 107, 2, RadioState.On⟩ ∧
    (107 : Nat) ≠ ({} : RadioInfo).stateToken ∧
    (onAdapterRemoved sharedRegistry "adapter-1").trace
      = [Event.emit (Signal.adapterRemoved "adapter-1")] := by
  decide

/-- C4, amended: for every registry and adapter id, `onAdapterRemoved` emits
exactly one `adapterRemoved(id)` and nothing else; if a record for the id
exists, afterwards its radio handle is null while its subscription token, its
`numClients`, its `currentState`, its presence and every other record are
unchanged; if none exists the registry is unchanged. -/
theorem C4_onAdapterRemoved_clears_only_handle (m : Registry) (id : AdapterId) :
    (onAdapterRemoved m id).trace = [Event.emit (Signal.adapterRemoved id)] ∧
    signalsOf (onAdapterRemoved m id).trace = [Signal.adapterRemoved id] ∧
    QMap.find (onAdapterRemoved m id).mRadios id
      = (QMap.find m id).map (fun i => { i with radio := none }) ∧
    (∀ k, k ≠ id → QMap.find (onAdapterRemoved m id).mRadios k = QMap.find m k) ∧
    QMap.keys (onAdapterRemoved m id).mRadios = QMap.keys m ∧
    (QMap.find m id = none → (onAdapterRemoved m id).mRadios = m) := by
  by_cases hc : QMap.contains m id = true
  · refine ⟨by simp [onAdapterRemoved, hc], by simp [onAdapterRemoved, hc, signalsOf], ?_, ?_,
      ?_, ?_⟩
    · simp only [onAdapterRemoved, hc, if_true]
      exact QMap.find_modify_self _ _ _
    · intro k hk
      simp only [onAdapterRemoved, hc, if_true]
      exact QMap.find_modify_ne id k _ m hk
    · simp only [onAdapterRemoved, hc, if_true]
      exact QMap.keys_modify _ _ _
    · intro hnone
      rw [(QMap.contains_eq_false_iff m id).2 hnone] at hc
      cases hc
  · have hnone : QMap.find m id = none :=
      (QMap.contains_eq_false_iff m id).1 (by simpa using hc)
    refine ⟨by simp [onAdapterRemoved, hc], by simp [onAdapterRemoved, hc, signalsOf], ?_, ?_,
      ?_, ?_⟩
    · simp [onAdapterRemoved, hc, hnone]
    · intro k _
      simp [onAdapterRemoved, hc]
    · simp [onAdapterRemoved, hc]
    · intro _
      simp [onAdapterRemoved, hc]

/-- Witness of C4 (amended): the adapter of a record with two clients is
unplugged; the other record of the registry is untouched. -/
theorem C4_onAdapterRemoved_clears_only_handle_witness :
    QMap.find (onAdapterRemoved sharedRegistry "adapter-1").mRadios "adapter-1"
      = (QMap.find sharedRegistry "adapter-1").map (fun i => { i with radio := none }) ∧
    ("adapter-2" ≠ "adapter-1" →
      QMap.find (onAdapterRemoved sharedRegistry "adapter-1").mRadios "adapter-2"
        = QMap.find sharedRegistry "adapter-2") :=
  ⟨(C4_onAdapterRemoved_clears_only_handle sharedRegistry "adapter-1").2.2.1,
    (C4_onAdapterRemoved_clears_only_handle sharedRegistry "adapter-1").2.2.2.1 "adapter-2"⟩

/-! ## The state-change handler -/

theorem radio_get_modify_currentState (m : Registry) (key k : AdapterId) (s : RadioState) :
    (QMap.get (QMap.modify key (fun i => { i with currentState := s }) m) k).radio
      = (QMap.get m k).radio := by
  by_cases hk : k = key
  · subst hk
    simp only [QMap.get, QMap.find_modify_self]
    cases QMap.find m k <;> rfl
  · simp only [QMap.get, QMap.find_modify_ne key k _ m hk]

theorem owner_modify_currentState (m : Registry) (key : AdapterId) (s : RadioState)
    (radio : Radio) :
    owner (QMap.modify key (fun i => { i with currentState := s }) m) radio = owner m radio := by
  simp only [owner, QMap.keys_modify, radio_get_modify_currentState]

theorem onStateChangeLoop_eq (m : Registry) (radio : Radio) (P : Platform)
    (ks : List AdapterId) :
    onStateChangeLoop m radio P ks =
      match ks.find? fun key => decide ((QMap.get m key).radio = some radio) with
      | none => ⟨m, [], ()⟩
      | some key =>
        if (QMap.get m key).currentState ≠ P.State radio then
          ⟨QMap.modify key (fun i => { i with currentState := P.State radio }) m,
            [Event.emit (Signal.modeChanged key (modeFromWindowsBluetoothState
              (QMap.get (QMap.modify key (fun i => { i with currentState := P.State radio }) m)
                key).currentState))], ()⟩
        else ⟨m, [], ()⟩ := by
  induction ks with
  | nil => rfl
  | cons key rest ih =>
    by_cases hr : (QMap.get m key).radio = some radio
    · simp [onStateChangeLoop, List.find?, hr]
    · simp [onStateChangeLoop, List.find?, hr, ih]

theorem owner_some_of_record (m : Registry) (radio : Radio) (k : AdapterId) (info : RadioInfo)
    (hfind : QMap.find m k = some info) (hradio : info.radio = some radio) :
    ∃ key, owner m radio = some key := by
  have hmem : k ∈ QMap.keys m := by
    induction m with
    | nil => cases hfind
    | cons e rest ih =>
      obtain ⟨k1, v1⟩ := e
      by_cases hk : k1 = k
      · simp [QMap.keys, hk]
      · simp only [QMap.find, hk, if_false] at hfind
        simp only [QMap.keys, List.map_cons, List.mem_cons]
        exact Or.inr (ih hfind)
  have hsome : ((QMap.keys m).find? fun key =>
      decide ((QMap.get m key).radio = some radio)).isSome = true := by
    rw [List.find?_isSome]
    exact ⟨k, hmem, by simp [QMap.get, hfind, hradio]⟩
  exact Option.isSome_iff_exists.1 hsome

theorem owner_spec (m : Registry) (radio : Radio) (key : AdapterId)
    (hown : owner m radio = some key) :
    ∃ info, QMap.find m key = some info ∧ info.radio = some radio := by
  have h := List.find?_some hown
  simp only [decide_eq_true_eq] at h
  cases hf : QMap.find m key with
  | none => simp [QMap.get, hf] at h
  | some info => exact ⟨info, rfl, by simpa [QMap.get, hf] using h⟩

theorem onStateChange_of_owner (m : Registry) (radio : Radio) (P : Platform)
    (key : AdapterId) (hown : owner m radio = some key) :
    onStateChange m radio P =
      if (QMap.get m key).currentState ≠ P.State radio then
        ⟨QMap.modify key (fun i => { i with currentState := P.State radio }) m,
          [Event.emit (Signal.modeChanged key (modeFromWindowsBluetoothState
            (QMap.get (QMap.modify key (fun i => { i with currentState := P.State radio }) m)
              key).currentState))], ()⟩
      else ⟨m, [], ()⟩ := by
  unfold owner at hown
  rw [onStateChange, onStateChangeLoop_eq, hown]

theorem currentState_get_modify (m : Registry) (key : AdapterId) (s : RadioState)
    (info : RadioInfo) (hfind : QMap.find m key = some info) :
    (QMap.get (QMap.modify key (fun i => { i with currentState := s }) m) key).currentState
      = s := by
  simp [QMap.get, QMap.find_modify_self, hfind]

/-- C5: when some record owns the reporting radio handle, the handler selects
an owning record (`key`); after the first of two consecutive `onStateChange`
callbacks that report the same state, that record's `currentState` is the
reported state; the two callbacks together emit exactly one signal,
`modeChanged(key, projection of the reported state)`, when the reported state
differs from the record's `currentState` before the first callback, and no
signal when it is equal; the second callback leaves the registry as the first
one left it. -/
theorem C5_duplicate_state_change_emits_once (m : Registry) (radio : Radio) (P : Platform)
    (k : AdapterId) (info : RadioInfo)
    (hfind : QMap.find m k = some info) (hradio : info.radio = some radio) :
    ∃ key before, owner m radio = some key ∧ QMap.find m key = some before ∧
      before.radio = some radio ∧
      (QMap.get (onStateChange m radio P).mRadios key).currentState = P.State radio ∧
      (onStateChange (onStateChange m radio P).mRadios radio P).mRadios
        = (onStateChange m radio P).mRadios ∧
      (before.currentState ≠ P.State radio →
        (onStateChange m radio P).trace ++
          (onStateChange (onStateChange m radio P).mRadios radio P).trace
          = [Event.emit (Signal.modeChanged key
              (modeFromWindowsBluetoothState (P.State radio)))]) ∧
      (before.currentState = P.State radio →
        (onStateChange m radio P).trace ++
          (onStateChange (onStateChange m radio P).mRadios radio P).trace = []) := by
  obtain ⟨key, hown⟩ := owner_some_of_record m radio k info hfind hradio
  obtain ⟨before, hbefore, hbradio⟩ := owner_spec m radio key hown
  have hget : QMap.get m key = before := QMap.get_of_find hbefore
  refine ⟨key, before, hown, hbefore, hbradio, ?_⟩
  by_cases hs : before.currentState = P.State radio
  · have h1 : onStateChange m radio P = ⟨m, [], ()⟩ := by
      rw [onStateChange_of_owner m radio P key hown, hget]
      simp [hs]
    rw [h1]
    simp only [h1, hget, List.append_nil]
    exact ⟨hs, trivial, fun h => absurd hs h, fun _ => trivial⟩
  · have hcur := currentState_get_modify m key (P.State radio) before hbefore
    have h1 : onStateChange m radio P =
        ⟨QMap.modify key (fun i => { i with currentState := P.State radio }) m,
          [Event.emit (Signal.modeChanged key
            (modeFromWindowsBluetoothState (P.State radio)))], ()⟩ := by
      rw [onStateChange_of_owner m radio P key hown, hget, hcur]
      simp [hs]
    have hown2 : owner (QMap.modify key (fun i => { i with currentState := P.State radio }) m)
        radio = some key := by
      rw [owner_modify_currentState]; exact hown
    have h2 : onStateChange
        (QMap.modify key (fun i => { i with currentState := P.State radio }) m) radio P
        = ⟨QMap.modify key (fun i => { i with currentState := P.State radio }) m, [], ()⟩ := by
      rw [onStateChange_of_owner _ radio P key hown2, hcur]
      simp
    rw [h1]
    simp only [h2, hcur, List.append_nil]
    exact ⟨trivial, trivial, fun _ => trivial, fun h => absurd h hs⟩

/-- Witness of C5: radio `7` of `adapter-1`, stored as `Off`, reports `On`
twice. -/
theorem C5_duplicate_state_change_emits_once_witness :
    QMap.find staleRegistry "adapter-1" = some ⟨some 7, 107, 1, RadioState.Off⟩ ∧
    ∃ key before, owner staleRegistry 7 = some key ∧
      QMap.find staleRegistry key = some before ∧
      before.radio = some 7 ∧
      (QMap.get (onStateChange staleRegistry 7 platformOn).mRadios key).currentState
        = platformOn.State 7 ∧
      (onStateChange (onStateChange staleRegistry 7 platformOn).mRadios 7 platformOn).mRadios
        = (onStateChange staleRegistry 7 platformOn).mRadios ∧
      (before.currentState ≠ platformOn.State 7 →
        (onStateChange staleRegistry 7 platformOn).trace ++
          (onStateChange (onStateChange staleRegistry 7 platformOn).mRadios 7 platformOn).trace
          = [Event.emit (Signal.modeChanged key
              (modeFromWindowsBluetoothState (platformOn.State 7)))]) ∧
      (before.currentState = platformOn.State 7 →
        (onStateChange staleRegistry 7 platformOn).trace ++
          (onStateChange (onStateChange staleRegistry 7 platformOn).mRadios 7 platformOn).trace
          = []) :=
  ⟨by decide,
    C5_duplicate_state_change_emits_once staleRegistry 7 platformOn "adapter-1"
      ⟨some 7, 107, 1, RadioState.Off⟩ (by decide) rfl⟩

/-! ## One resubscription attempt -/

theorem attempt_skipped (m : Registry) (id : AdapterId) (n : Nat) (P : Platform)
    (R : Resolution) (during : Registry → Registry)
    (h : QMap.find m id = none ∨
      ∃ info r, QMap.find m id = some info ∧ info.radio = some r) :
    tryResubscribeToStateChanges m id n P R during = ⟨m, [], ()⟩ := by
  rcases h with hnone | ⟨info, r, hfind, hradio⟩
  · have hc : QMap.contains m id = false := (QMap.contains_eq_false_iff m id).2 hnone
    simp [tryResubscribeToStateChanges, hc]
  · have hc : QMap.contains m id = true := (QMap.contains_eq_true_iff m id).2 ⟨info, hfind⟩
    simp [tryResubscribeToStateChanges, hc, QMap.get, hfind, hradio]

theorem attempt_unresolved (m : Registry) (id : AdapterId) (n : Nat) (P : Platform)
    (R : Resolution) (during : Registry → Registry) (info : RadioInfo)
    (hfind : QMap.find m id = some info) (hnull : info.radio = none)
    (hres : getRadioFromAdapterId R = none) :
    tryResubscribeToStateChanges m id n P R during =
      if n + 1 < kMaximumAttempts then
        ⟨m, [Event.resolve id, Event.debug LogLine.tryingToResubscribe,
          Event.singleShot 100 id (n + 1)], ()⟩
      else
        ⟨m, [Event.resolve id, Event.warning (LogLine.failedToResubscribe (n + 1))], ()⟩ := by
  have hc : QMap.contains m id = true := (QMap.contains_eq_true_iff m id).2 ⟨info, hfind⟩
  simp [tryResubscribeToStateChanges, hc, QMap.get, hfind, hnull, hres]

theorem attempt_resolved_present (m : Registry) (id : AdapterId) (n : Nat) (P : Platform)
    (R : Resolution) (during : Registry → Registry) (info after : RadioInfo) (r : Radio)
    (hfind : QMap.find m id = some info) (hnull : info.radio = none)
    (hres : getRadioFromAdapterId R = some r)
    (hafter : QMap.find (during m) id = some after) :
    (tryResubscribeToStateChanges m id n P R during).trace =
        [Event.resolve id, Event.subscribe r,
          Event.emit (Signal.modeChanged id (modeFromWindowsBluetoothState (P.State r)))] ∧
      QMap.find (tryResubscribeToStateChanges m id n P R during).mRadios id =
        some { after with radio := some r, currentState := P.State r,
                          stateToken := P.StateChanged r } ∧
      (∀ k, k ≠ id → QMap.find (tryResubscribeToStateChanges m id n P R during).mRadios k
        = QMap.find (during m) k) ∧
      QMap.keys (tryResubscribeToStateChanges m id n P R during).mRadios
        = QMap.keys (during m) := by
  have hc : QMap.contains m id = true := (QMap.contains_eq_true_iff m id).2 ⟨info, hfind⟩
  have hc2 : QMap.contains (during m) id = true :=
    (QMap.contains_eq_true_iff _ id).2 ⟨after, hafter⟩
  refine ⟨?_, ?_, ?_, ?_⟩
  · simp [tryResubscribeToStateChanges, hc, hc2, QMap.get, hfind, hnull, hres,
      subscribeToStateChanges, QMap.find_modify_self, hafter]
  · simp [tryResubscribeToStateChanges, hc, hc2, QMap.get, hfind, hnull, hres,
      subscribeToStateChanges, QMap.find_modify_self, hafter]
  · intro k hk
    simp [tryResubscribeToStateChanges, hc, hc2, QMap.get, hfind, hnull, hres,
      QMap.find_modify_ne id k _ _ hk]
  · simp [tryResubscribeToStateChanges, hc, hc2, QMap.get, hfind, hnull, hres,
      QMap.keys_modify]

theorem attempt_resolved_deleted (m : Registry) (id : AdapterId) (n : Nat) (P : Platform)
    (R : Resolution) (during : Registry → Registry) (info : RadioInfo) (r : Radio)
    (hfind : QMap.find m id = some info) (hnull : info.radio = none)
    (hres : getRadioFromAdapterId R = some r)
    (hafter : QMap.find (during m) id = none) :
    tryResubscribeToStateChanges m id n P R during = ⟨during m, [Event.resolve id], ()⟩ := by
  have hc : QMap.contains m id = true := (QMap.contains_eq_true_iff m id).2 ⟨info, hfind⟩
  have hc2 : QMap.contains (during m) id = false :=
    (QMap.contains_eq_false_iff _ id).2 hafter
  simp [tryResubscribeToStateChanges, hc, hc2, QMap.get, hfind, hnull, hres]

theorem retryChain_of_none (E : RetryEnv) (m : Registry) (id : AdapterId) (n : Nat)
    (h : scheduledRetry (tryResubscribeToStateChanges m id n (E.platform n)
      (E.resolution n) (E.during n)).trace = none) :
    retryChain E m id n =
      tryResubscribeToStateChanges m id n (E.platform n) (E.resolution n) (E.during n) := by
  rw [retryChain]
  split
  · rfl
  · next id1 n1 h1 =>
    rw [h] at h1
    cases h1

theorem retryChain_of_some (E : RetryEnv) (m : Registry) (id : AdapterId) (n : Nat)
    (id1 : AdapterId) (n1 : Nat)
    (h : scheduledRetry (tryResubscribeToStateChanges m id n (E.platform n)
      (E.resolution n) (E.during n)).trace = some (id1, n1)) :
    retryChain E m id n =
      ⟨(retryChain E (E.between n (tryResubscribeToStateChanges m id n (E.platform n)
          (E.resolution n) (E.during n)).mRadios) id1 n1).mRadios,
        (tryResubscribeToStateChanges m id n (E.platform n)
          (E.resolution n) (E.during n)).trace ++
        (retryChain E (E.between n (tryResubscribeToStateChanges m id n (E.platform n)
          (E.resolution n) (E.during n)).mRadios) id1 n1).trace, ()⟩ := by
  rw [retryChain]
  split
  · next h1 =>
    rw [h] at h1
    cases h1
  · next id2 n2 h1 =>
    rw [h] at h1
    cases h1
    rfl

/-- C7: at the start of a retry attempt with any attempt number (the first
one, number `0`, is the call `onAdapterAdded` queues after emitting
`adapterAdded`), if no record exists for the adapter id or the record holds a
live radio handle, `tryResubscribeToStateChanges` performs no radio
resolution, arms no timer for a further attempt, emits no signal and leaves
the registry unchanged; the retry chain ends there. -/
theorem C7_attempt_cancels_itself (E : RetryEnv) (m : Registry) (id : AdapterId) (n : Nat)
    (P : Platform) (R : Resolution) (during : Registry → Registry)
    (h : QMap.find m id = none ∨
      ∃ info r, QMap.find m id = some info ∧ info.radio = some r) :
    (tryResubscribeToStateChanges m id n P R during).mRadios = m ∧
    (tryResubscribeToStateChanges m id n P R during).trace = [] ∧
    resolutionsOf (tryResubscribeToStateChanges m id n P R during).trace = 0 ∧
    scheduledRetry (tryResubscribeToStateChanges m id n P R during).trace = none ∧
    modeChangesOf (tryResubscribeToStateChanges m id n P R during).trace = [] ∧
    (retryChain E m id n).trace = [] ∧ (retryChain E m id n).mRadios = m ∧
    (onAdapterAdded m id).trace
      = [Event.emit (Signal.adapterAdded id), Event.invokeQueued id 0] ∧
    (onAdapterAdded m id).mRadios = m := by
  have h1 := attempt_skipped m id n P R during h
  have h2 := attempt_skipped m id n (E.platform n) (E.resolution n) (E.during n) h
  have h3 : retryChain E m id n = ⟨m, [], ()⟩ := by
    rw [retryChain_of_none E m id n (by rw [h2]; rfl), h2]
  rw [h1, h3]
  exact ⟨rfl, rfl, rfl, rfl, rfl, rfl, rfl, rfl, rfl⟩

/-- Witness of C7: an adapter-added event for `adapter-1` whose record still
holds its live handle. -/
theorem C7_attempt_cancels_itself_witness :
    (QMap.find sharedRegistry "adapter-1" = none ∨
      ∃ info r, QMap.find sharedRegistry "adapter-1" = some info ∧ info.radio = some r) ∧
    (tryResubscribeToStateChanges sharedRegistry "adapter-1" 0 platformOn resolvesTo7 id).mRadios
      = sharedRegistry ∧
    (tryResubscribeToStateChanges sharedRegistry "adapter-1" 0 platformOn resolvesTo7 id).trace
      = [] :=
  have h : QMap.find sharedRegistry "adapter-1" = none ∨
      ∃ info r, QMap.find sharedRegistry "adapter-1" = some info ∧ info.radio = some r :=
    Or.inr ⟨⟨some 7, 107, 2, RadioState.On⟩, 7, by decide, rfl⟩
  ⟨h, (C7_attempt_cancels_itself neverResolves sharedRegistry "adapter-1" 0 platformOn
      resolvesTo7 id h).1,
    (C7_attempt_cancels_itself neverResolves sharedRegistry "adapter-1" 0 platformOn
      resolvesTo7 id h).2.1⟩

/-- C8: a retry attempt that starts on a record without handle and obtains a
radio handle.  If a record for the id exists when the resolution returns, the
handle (with the token of the new subscription) is installed in that record,
its `currentState` becomes the freshly observed state, its `numClients` and
every other record are unchanged, exactly one signal
`modeChanged(id, projection of the observed state)` is emitted and no timer is
armed.  If the record was deleted during the resolution, the handle is
dropped without subscription, the registry is as the resolution left it,
nothing is emitted and no timer is armed. -/
theorem C8_attempt_with_handle (m : Registry) (id : AdapterId) (n : Nat)
    (P : Platform) (R : Resolution) (during : Registry → Registry)
    (info : RadioInfo) (r : Radio)
    (hfind : QMap.find m id = some info) (hnull : info.radio = none)
    (hres : getRadioFromAdapterId R = some r) :
    (∀ after, QMap.find (during m) id = some after →
      QMap.find (tryResubscribeToStateChanges m id n P R during).mRadios id =
        some ⟨some r, P.StateChanged r, after.numClients, P.State r⟩ ∧
      (∀ k, k ≠ id → QMap.find (tryResubscribeToStateChanges m id n P R during).mRadios k
        = QMap.find (during m) k) ∧
      QMap.keys (tryResubscribeToStateChanges m id n P R during).mRadios
        = QMap.keys (during m) ∧
      signalsOf (tryResubscribeToStateChanges m id n P R during).trace
        = [Signal.modeChanged id (modeFromWindowsBluetoothState (P.State r))] ∧
      scheduledRetry (tryResubscribeToStateChanges m id n P R during).trace = none ∧
      resolutionsOf (tryResubscribeToStateChanges m id n P R during).trace = 1) ∧
    (QMap.find (during m) id = none →
      (tryResubscribeToStateChanges m id n P R during).mRadios = during m ∧
      (tryResubscribeToStateChanges m id n P R during).trace = [Event.resolve id] ∧
      signalsOf (tryResubscribeToStateChanges m id n P R during).trace = [] ∧
      scheduledRetry (tryResubscribeToStateChanges m id n P R during).trace = none) := by
  constructor
  · intro after hafter
    obtain ⟨ht, hf, ho, hk⟩ :=
      attempt_resolved_present m id n P R during info after r hfind hnull hres hafter
    refine ⟨hf, ho, hk, ?_, ?_, ?_⟩ <;> rw [ht] <;> rfl
  · intro hafter
    rw [attempt_resolved_deleted m id n P R during info r hfind hnull hres hafter]
    exact ⟨rfl, rfl, rfl, rfl⟩

/-- Witness of C8: the adapter of `unpluggedRegistry` is plugged in again and
its radio `7` reports `Off`; the record keeps its two clients. -/
theorem C8_attempt_with_handle_witness :
    QMap.find unpluggedRegistry "adapter-1" = some ⟨none, 107, 2, RadioState.On⟩ ∧
    getRadioFromAdapterId resolvesTo7 = some 7 ∧
    QMap.find (tryResubscribeToStateChanges unpluggedRegistry "adapter-1" 0 platformOff
      resolvesTo7 id).mRadios "adapter-1" = some ⟨some 7, 107, 2, RadioState.Off⟩ ∧
    signalsOf (tryResubscribeToStateChanges unpluggedRegistry "adapter-1" 0 platformOff
      resolvesTo7 id).trace = [Signal.modeChanged "adapter-1" HostMode.HostPoweredOff] ∧
    (tryResubscribeToStateChanges unpluggedRegistry "adapter-1" 0 platformOff
      resolvesTo7 (fun _ => [])).mRadios = [] :=
  have h := C8_attempt_with_handle unpluggedRegistry "adapter-1" 0 platformOff resolvesTo7 id
    ⟨none, 107, 2, RadioState.On⟩ 7 (by decide) rfl (by decide)
  have h2 := C8_attempt_with_handle unpluggedRegistry "adapter-1" 0 platformOff resolvesTo7
    (fun _ => []) ⟨none, 107, 2, RadioState.On⟩ 7 (by decide) rfl (by decide)
  ⟨by decide, by decide,
    (h.1 ⟨none, 107, 2, RadioState.On⟩ (by decide)).1,
    (h.1 ⟨none, 107, 2, RadioState.On⟩ (by decide)).2.2.2.1,
    (h2.2 (by decide)).1⟩

/-! ## The retry chain -/

theorem resolutionsOf_append (a b : List Event) :
    resolutionsOf (a ++ b) = resolutionsOf a + resolutionsOf b := by
  simp [resolutionsOf, List.filter_append]

theorem signalsOf_append (a b : List Event) :
    signalsOf (a ++ b) = signalsOf a ++ signalsOf b := by
  simp [signalsOf, List.filterMap_append]

theorem attempt_resolves_at_most_once (m : Registry) (id : AdapterId) (n : Nat)
    (P : Platform) (R : Resolution) (during : Registry → Registry) :
    resolutionsOf (tryResubscribeToStateChanges m id n P R during).trace ≤ 1 := by
  simp only [tryResubscribeToStateChanges, subscribeToStateChanges]
  repeat' split
  all_goals simp [resolutionsOf, List.filter]

theorem attempt_schedules_next (m : Registry) (id : AdapterId) (n : Nat)
    (P : Platform) (R : Resolution) (during : Registry → Registry)
    (id1 : AdapterId) (n1 : Nat)
    (h : scheduledRetry (tryResubscribeToStateChanges m id n P R during).trace
      = some (id1, n1)) :
    id1 = id ∧ n1 = n + 1 ∧ n + 1 < kMaximumAttempts := by
  simp only [tryResubscribeToStateChanges, subscribeToStateChanges] at h
  repeat' split at h
  all_goals simp_all [scheduledRetry, List.findSome?]

theorem retryChain_resolutions_le (E : RetryEnv) (id : AdapterId) (d : Nat) :
    ∀ (n : Nat) (m : Registry), kMaximumAttempts - n ≤ d →
      resolutionsOf (retryChain E m id n).trace ≤ max 1 d := by
  induction d with
  | zero =>
    intro n m hn
    have hnone : scheduledRetry (tryResubscribeToStateChanges m id n (E.platform n)
        (E.resolution n) (E.during n)).trace = none := by
      cases hs : scheduledRetry (tryResubscribeToStateChanges m id n (E.platform n)
        (E.resolution n) (E.during n)).trace with
      | none => rfl
      | some p =>
        obtain ⟨id1, n1⟩ := p
        have := attempt_schedules_next m id n _ _ _ id1 n1 hs
        omega
    rw [retryChain_of_none E m id n hnone]
    exact attempt_resolves_at_most_once _ _ _ _ _ _
  | succ d ih =>
    intro n m hn
    cases hs : scheduledRetry (tryResubscribeToStateChanges m id n (E.platform n)
      (E.resolution n) (E.during n)).trace with
    | none =>
      rw [retryChain_of_none E m id n hs]
      have := attempt_resolves_at_most_once m id n (E.platform n) (E.resolution n) (E.during n)
      omega
    | some p =>
      obtain ⟨id1, n1⟩ := p
      obtain ⟨hid, hn1, hlt⟩ := attempt_schedules_next m id n _ _ _ id1 n1 hs
      subst hid hn1
      rw [retryChain_of_some E m id1 n id1 (n + 1) hs]
      simp only [resolutionsOf_append]
      have h1 := attempt_resolves_at_most_once m id1 n (E.platform n) (E.resolution n)
        (E.during n)
      have h2 := ih (n + 1) (E.between n (tryResubscribeToStateChanges m id1 n (E.platform n)
        (E.resolution n) (E.during n)).mRadios) (by omega)
      omega

theorem retryChain_all_fail (E : RetryEnv) (id : AdapterId)
    (hfail : ∀ n, getRadioFromAdapterId (E.resolution n) = none)
    (hkeep : ∀ n m1, Unplugged id m1 → Unplugged id (E.between n m1)) (d : Nat) :
    ∀ (n : Nat) (m : Registry), n + d + 1 = kMaximumAttempts → Unplugged id m →
      resolutionsOf (retryChain E m id n).trace = d + 1 ∧
      signalsOf (retryChain E m id n).trace = [] ∧
      scheduledRetry (retryChain E m id n).trace = (if d = 0 then none else some (id, n + 1)) ∧
      (retryChain E m id n).mRadios = ambient E n d m := by
  induction d with
  | zero =>
    intro n m hn hm
    obtain ⟨info, hfind, hnull⟩ := hm
    have ha := attempt_unresolved m id n (E.platform n) (E.resolution n) (E.during n) info
      hfind hnull (hfail n)
    have hge : ¬ n + 1 < kMaximumAttempts := by omega
    rw [if_neg hge] at ha
    rw [retryChain_of_none E m id n (by rw [ha]; rfl), ha]
    exact ⟨rfl, rfl, rfl, rfl⟩
  | succ d ih =>
    intro n m hn hm
    obtain ⟨info, hfind, hnull⟩ := hm
    have ha := attempt_unresolved m id n (E.platform n) (E.resolution n) (E.during n) info
      hfind hnull (hfail n)
    have hlt : n + 1 < kMaximumAttempts := by omega
    rw [if_pos hlt] at ha
    have hs : scheduledRetry (tryResubscribeToStateChanges m id n (E.platform n)
        (E.resolution n) (E.during n)).trace = some (id, n + 1) := by rw [ha]; rfl
    rw [retryChain_of_some E m id n id (n + 1) hs, ha]
    obtain ⟨h1, h2, _, h4⟩ := ih (n + 1) (E.between n m) (by omega) (hkeep n m ⟨info, hfind, hnull⟩)
    refine ⟨?_, ?_, ?_, ?_⟩
    · simp only [resolutionsOf_append, h1]
      simp [resolutionsOf, List.filter]
      omega
    · simp only [signalsOf_append, h2]
      rfl
    · rfl
    · exact h4

/-- C6: the retry chain started by `tryResubscribeToStateChanges(id, 0)` is a
total function of the surroundings (it terminates for every behaviour of the
radio resolution and of the other handlers) and performs at most 5
resolutions.  An attempt whose resolution fails on a record without handle
arms the timer for attempt `n + 1` exactly when `n + 1 < 5`.  When every
resolution fails and the record stays present without a handle, the chain
performs exactly 5 resolutions, emits no signal, and leaves the registry as
the other handlers alone made it, so unchanged when they do nothing. -/
theorem C6_retry_chain_bounded (E : RetryEnv) (m : Registry) (id : AdapterId) :
    resolutionsOf (retryChain E m id 0).trace ≤ 5 ∧
    (∀ n P R during, Unplugged id m → getRadioFromAdapterId R = none →
      scheduledRetry (tryResubscribeToStateChanges m id n P R during).trace
        = if n + 1 < 5 then some (id, n + 1) else none) ∧
    ((∀ n, getRadioFromAdapterId (E.resolution n) = none) →
      (∀ n m1, Unplugged id m1 → Unplugged id (E.between n m1)) →
      Unplugged id m →
        resolutionsOf (retryChain E m id 0).trace = 5 ∧
        signalsOf (retryChain E m id 0).trace = [] ∧
        (retryChain E m id 0).mRadios
          = E.between 3 (E.between 2 (E.between 1 (E.between 0 m))) ∧
        ((∀ n m1, E.between n m1 = m1) → (retryChain E m id 0).mRadios = m)) := by
  refine ⟨?_, ?_, ?_⟩
  · exact retryChain_resolutions_le E id 5 0 m (by simp [kMaximumAttempts])
  · intro n P R during hm hres
    obtain ⟨info, hfind, hnull⟩ := hm
    rw [attempt_unresolved m id n P R during info hfind hnull hres]
    by_cases hlt : n + 1 < 5
    · simp only [kMaximumAttempts, hlt, if_true]; rfl
    · simp only [kMaximumAttempts, hlt, if_false]; rfl
  · intro hfail hkeep hm
    obtain ⟨h1, h2, _, h4⟩ := retryChain_all_fail E id hfail hkeep 4 0 m rfl hm
    refine ⟨h1, h2, h4, ?_⟩
    intro hid
    rw [h4]
    simp [ambient, hid]

theorem neverResolves_keeps (n : Nat) (m1 : Registry)
    (h : Unplugged "adapter-1" m1) : Unplugged "adapter-1" (neverResolves.between n m1) := h

theorem neverResolves_fails (n : Nat) :
    getRadioFromAdapterId (neverResolves.resolution n) = none := rfl

theorem unpluggedRegistry_unplugged : Unplugged "adapter-1" unpluggedRegistry :=
  ⟨⟨none, 107, 2, RadioState.On⟩, by decide, rfl⟩

/-- Witness of C6: `adapter-1` is reported present but its radio never
resolves; the chain resolves 5 times, stays silent and leaves the record as
it was. -/
theorem C6_retry_chain_bounded_witness :
    (∀ n, getRadioFromAdapterId (neverResolves.resolution n) = none) ∧
    Unplugged "adapter-1" unpluggedRegistry ∧
    resolutionsOf (retryChain neverResolves unpluggedRegistry "adapter-1" 0).trace = 5 ∧
    signalsOf (retryChain neverResolves unpluggedRegistry "adapter-1" 0).trace = [] ∧
    (retryChain neverResolves unpluggedRegistry "adapter-1" 0).mRadios = unpluggedRegistry :=
  have h := (C6_retry_chain_bounded neverResolves unpluggedRegistry "adapter-1").2.2
    neverResolves_fails neverResolves_keeps unpluggedRegistry_unplugged
  ⟨neverResolves_fails, unpluggedRegistry_unplugged, h.1, h.2.1, h.2.2.2 (fun _ _ => rfl)⟩

/-! ## Mode changes -/

/-- C9, counterexample: the record of `adapter-1` has the live radio `7`; the
set-state call completes with `DeniedByUser`, or does not complete; in both
runs `updateMode` emits no signal at all, so no error notification. -/
theorem C9_counterexample_failure_only_logged :
    QMap.find sharedRegistry "adapter-1" = some ⟨some 7, 107, 2, RadioState.On⟩ ∧
    (updateMode sharedRegistry "adapter-1" HostMode.HostPoweredOff
      (some RadioAccessStatus.DeniedByUser)).trace
      = [Event.setStateAsync 7 RadioState.Off, Event.warning LogLine.setStateAsyncFailed] ∧
    signalsOf (updateMode sharedRegistry "adapter-1" HostMode.HostPoweredOff
      (some RadioAccessStatus.DeniedByUser)).trace = [] ∧
    signalsOf (updateMode sharedRegistry "adapter-1" HostMode.HostPoweredOff none).trace
      = [] := by
  decide

/-- C9, amended: for a registered adapter with a live radio handle and every
desired mode, when the set-state call issued by `updateMode` does not
complete or completes with a status other than `Allowed`, `updateMode` issues
the call, logs the warning that `SetStateAsync()` failed (followed by the
permissions hint exactly when the status is `DeniedBySystem`), emits no
signal and leaves the registry unchanged; the facade method
`updateAdapterState` never emits `errorOccurred` either. -/
theorem C9_updateMode_failure_is_logged (m : Registry) (adapterId : AdapterId)
    (mode : HostMode) (setState : Option RadioAccessStatus) (info : RadioInfo) (r : Radio)
    (hfind : QMap.find m adapterId = some info) (hradio : info.radio = some r)
    (hfail : setState ≠ some RadioAccessStatus.Allowed) :
    (updateMode m adapterId mode setState).trace =
      [Event.setStateAsync r (windowsStateFromMode mode),
        Event.warning LogLine.setStateAsyncFailed] ++
      (if setState = some RadioAccessStatus.DeniedBySystem
        then [Event.warning LogLine.checkPermissions] else []) ∧
    signalsOf (updateMode m adapterId mode setState).trace = [] ∧
    (updateMode m adapterId mode setState).mRadios = m ∧
    (∀ (d : QBluetoothLocalDevicePrivate) (access : Option RadioAccessStatus) (e : Error),
      Event.emit (Signal.errorOccurred e) ∉ d.updateAdapterState mode access) := by
  have hc : QMap.contains m adapterId = true :=
    (QMap.contains_eq_true_iff m adapterId).2 ⟨info, hfind⟩
  have ht : (updateMode m adapterId mode setState).trace =
      [Event.setStateAsync r (windowsStateFromMode mode),
        Event.warning LogLine.setStateAsyncFailed] ++
      (if setState = some RadioAccessStatus.DeniedBySystem
        then [Event.warning LogLine.checkPermissions] else []) := by
    cases setState with
    | none => simp [updateMode, hc, QMap.get, hfind, hradio, awaitInto]
    | some st =>
      cases st <;> simp_all [updateMode, hc, QMap.get, hfind, hradio, awaitInto]
  refine ⟨ht, ?_, ?_, ?_⟩
  · rw [ht]
    split <;> rfl
  · simp only [updateMode, hc, QMap.get, hfind, hradio]
    repeat' split
    all_goals rfl
  · intro d access e
    simp only [QBluetoothLocalDevicePrivate.updateAdapterState]
    repeat' split
    all_goals simp

/-- Witness of C9 (amended): the platform denies the change by system
policy. -/
theorem C9_updateMode_failure_is_logged_witness :
    QMap.find sharedRegistry "adapter-1" = some ⟨some 7, 107, 2, RadioState.On⟩ ∧
    (updateMode sharedRegistry "adapter-1" HostMode.HostConnectable
      (some RadioAccessStatus.DeniedBySystem)).trace =
      [Event.setStateAsync 7 (windowsStateFromMode HostMode.HostConnectable),
        Event.warning LogLine.setStateAsyncFailed] ++
      (if some RadioAccessStatus.DeniedBySystem = some RadioAccessStatus.DeniedBySystem
        then [Event.warning LogLine.checkPermissions] else []) ∧
    signalsOf (updateMode sharedRegistry "adapter-1" HostMode.HostConnectable
      (some RadioAccessStatus.DeniedBySystem)).trace = [] :=
  have h := C9_updateMode_failure_is_logged sharedRegistry "adapter-1"
    HostMode.HostConnectable (some RadioAccessStatus.DeniedBySystem)
    ⟨some 7, 107, 2, RadioState.On⟩ 7 (by decide) rfl (by decide)
  ⟨by decide, h.1, h.2.1⟩

theorem keeps_refl (m : Registry) : KeepsCurrentState m m := by
  intro k info info1 h h1
  rw [h] at h1
  cases h1
  rfl

theorem keeps_of_find_eq (m after : Registry)
    (h : ∀ k info, QMap.find m k = some info →
      QMap.find after k = none ∨
      ∃ info1, QMap.find after k = some info1 ∧ info1.currentState = info.currentState) :
    KeepsCurrentState m after := by
  intro k info info1 hf hf1
  rcases h k info hf with hnone | ⟨info2, hf2, hcur⟩
  · rw [hnone] at hf1; cases hf1
  · rw [hf2] at hf1; cases hf1; exact hcur

theorem keeps_modify (m : Registry) (key : AdapterId) (f : RadioInfo → RadioInfo)
    (hf : ∀ i, (f i).currentState = i.currentState) :
    KeepsCurrentState m (QMap.modify key f m) := by
  apply keeps_of_find_eq
  intro k info hfind
  by_cases hk : k = key
  · subst hk
    exact Or.inr ⟨f info, by rw [QMap.find_modify_self, hfind]; rfl, hf info⟩
  · exact Or.inr ⟨info, by rw [QMap.find_modify_ne key k f m hk, hfind], rfl⟩

theorem keeps_remove_modify (m : Registry) (key : AdapterId) (f : RadioInfo → RadioInfo) :
    KeepsCurrentState m (QMap.remove key (QMap.modify key f m)) := by
  apply keeps_of_find_eq
  intro k info hfind
  by_cases hk : k = key
  · subst hk
    exact Or.inl (QMap.find_remove_self _ _)
  · exact Or.inr ⟨info, by
      rw [QMap.find_remove_ne key k _ hk, QMap.find_modify_ne key k f m hk, hfind], rfl⟩

theorem keeps_insert_new (m : Registry) (key : AdapterId) (value : RadioInfo)
    (hnew : QMap.find m key = none) : KeepsCurrentState m (QMap.insert key value m) := by
  apply keeps_of_find_eq
  intro k info hfind
  by_cases hk : k = key
  · subst hk
    rw [hnew] at hfind
    cases hfind
  · exact Or.inr ⟨info, by rw [QMap.find_insert_ne key k value m hk, hfind], rfl⟩

theorem addClient_keeps (m : Registry) (adapterId : AdapterId) (P : Platform)
    (R : Resolution) (o : Outcome HostMode)
    (h : addClient m adapterId P R (fun x => x) = some o) :
    KeepsCurrentState m o.mRadios := by
  cases hfind : QMap.find m adapterId with
  | none =>
    cases hres : getRadioFromAdapterId R with
    | none =>
      rw [addClient_unresolved m adapterId P R _ hfind hres] at h
      cases h
      exact keeps_refl m
    | some r =>
      rw [addClient_new m adapterId P R _ r hfind hres] at h
      cases h
      exact keeps_insert_new m adapterId _ hfind
  | some info =>
    cases hradio : info.radio with
    | none =>
      rw [addClient_cleared m adapterId P R _ info hfind hradio] at h
      cases h
    | some r =>
      rw [addClient_existing m adapterId P R _ info r hfind hradio] at h
      cases h
      exact keeps_modify m adapterId _ (fun _ => rfl)

theorem removeClient_keeps (m : Registry) (adapterId : AdapterId) :
    KeepsCurrentState m (removeClient m adapterId).mRadios := by
  simp only [removeClient]
  repeat' split
  · exact keeps_remove_modify m adapterId _
  · exact keeps_modify m adapterId _ (fun _ => rfl)
  · exact keeps_refl m

theorem onAdapterRemoved_keeps (m : Registry) (id : AdapterId) :
    KeepsCurrentState m (onAdapterRemoved m id).mRadios := by
  simp only [onAdapterRemoved]
  split
  · exact keeps_modify m id _ (fun _ => rfl)
  · exact keeps_refl m

theorem attempt_without_handle_keeps (m : Registry) (id : AdapterId) (n : Nat)
    (P : Platform) (R : Resolution) (during : Registry → Registry)
    (hres : getRadioFromAdapterId R = none) :
    (tryResubscribeToStateChanges m id n P R during).mRadios = m := by
  simp only [tryResubscribeToStateChanges, hres]
  repeat' split
  all_goals rfl

/-- C10: for every registry, adapter id, desired mode and outcome of the
platform set-state call (success included), `updateMode` returns the registry
it was given (no record changes, `currentState` is not set to the requested
state) and emits no signal, so no `modeChanged`.  The handlers other than
`onStateChange` and a resubscription attempt that obtains a handle keep the
`currentState` of every record that exists before and after them:
`addClient` and `removeClient` run to completion, `onAdapterAdded`,
`onAdapterRemoved`, and a resubscription attempt whose resolution fails. -/
theorem C10_updateMode_writes_nothing (m : Registry) (adapterId : AdapterId)
    (mode : HostMode) (setState : Option RadioAccessStatus) :
    (updateMode m adapterId mode setState).mRadios = m ∧
    signalsOf (updateMode m adapterId mode setState).trace = [] ∧
    modeChangesOf (updateMode m adapterId mode setState).trace = [] ∧
    KeepsCurrentState m (updateMode m adapterId mode setState).mRadios ∧
    (∀ P R o, addClient m adapterId P R (fun x => x) = some o →
      KeepsCurrentState m o.mRadios) ∧
    KeepsCurrentState m (removeClient m adapterId).mRadios ∧
    KeepsCurrentState m (onAdapterAdded m adapterId).mRadios ∧
    KeepsCurrentState m (onAdapterRemoved m adapterId).mRadios ∧
    (∀ n P R during, getRadioFromAdapterId R = none →
      KeepsCurrentState m (tryResubscribeToStateChanges m adapterId n P R during).mRadios) := by
  have hm : (updateMode m adapterId mode setState).mRadios = m := by
    simp only [updateMode]
    repeat' split
    all_goals rfl
  refine ⟨hm, ?_, ?_, ?_, ?_, removeClient_keeps m adapterId, keeps_refl m,
    onAdapterRemoved_keeps m adapterId, ?_⟩
  · simp only [updateMode]
    repeat' split
    all_goals rfl
  · simp only [updateMode]
    repeat' split
    all_goals rfl
  · rw [hm]
    exact keeps_refl m
  · intro P R o h
    exact addClient_keeps m adapterId P R o h
  · intro n P R during hres
    rw [attempt_without_handle_keeps m adapterId n P R during hres]
    exact keeps_refl m

/-- Witness of C10: the platform allows the change to `HostPoweredOff`; the
record still stores `On` and nothing is emitted. -/
theorem C10_updateMode_writes_nothing_witness :
    (updateMode sharedRegistry "adapter-1" HostMode.HostPoweredOff
      (some RadioAccessStatus.Allowed)).mRadios = sharedRegistry ∧
    signalsOf (updateMode sharedRegistry "adapter-1" HostMode.HostPoweredOff
      (some RadioAccessStatus.Allowed)).trace = [] ∧
    (getRadioFromAdapterId resolvesNot = none →
      KeepsCurrentState sharedRegistry (tryResubscribeToStateChanges sharedRegistry
        "adapter-1" 0 platformOn resolvesNot id).mRadios) :=
  have h := C10_updateMode_writes_nothing sharedRegistry "adapter-1" HostMode.HostPoweredOff
    (some RadioAccessStatus.Allowed)
  ⟨h.1, h.2.1, h.2.2.2.2.2.2.2.2 0 platformOn resolvesNot id⟩

end AdapterManager

/-! ## Pairing -/

theorem pairingInfoFromAddress_trace (address : Nat) (L : PairingLookup) :
    (pairingInfoFromAddress address L).2 = [Event.fromBluetoothAddressAsync address] ∨
    (pairingInfoFromAddress address L).2 =
      [Event.fromBluetoothAddressAsync address, Event.leFromBluetoothAddressAsync address] := by
  simp only [pairingInfoFromAddress]
  repeat' split
  all_goals simp

theorem pairingInfoFromAddress_silent (address : Nat) (L : PairingLookup) :
    notificationsOf (pairingInfoFromAddress address L).2 = [] ∧
    ∀ e ∈ (pairingInfoFromAddress address L).2, isPairingCall e = false := by
  rcases pairingInfoFromAddress_trace address L with h | h <;> rw [h] <;>
    simp [notificationsOf, isPairingCall]

theorem pairingStatus_trace (d : QBluetoothLocalDevicePrivate) (address : Nat)
    (L : PairingLookup) (hvalid : d.isValid = true) (haddr : address ≠ 0) :
    (QBluetoothLocalDevice.pairingStatus d address L).2 = (pairingInfoFromAddress address L).2 := by
  simp only [QBluetoothLocalDevice.pairingStatus, hvalid, haddr]
  repeat' split
  all_goals simp_all

theorem notificationsOf_append (a b : List Event) :
    notificationsOf (a ++ b) = notificationsOf a ++ notificationsOf b := by
  simp [notificationsOf, List.filterMap_append]

/-- C11: for a valid facade, a non-null remote address and a desired pairing
mode equal to `pairingStatus(address)`, `requestPairing` returns after the
lookups of `pairingStatus` alone: it issues no pair or unpair call and no
registration of a confirmation handler (the pairing worker is not invoked),
and posts exactly one notification, `pairingFinished(address, desired mode)`. -/
theorem C11_requestPairing_already_in_mode (d : QBluetoothLocalDevicePrivate) (address : Nat)
    (pairing : Pairing) (statusLookup workerLookup : PairingLookup)
    (pairOutcome : Option DevicePairingResultStatus)
    (unpairOutcome : Option DeviceUnpairingResultStatus)
    (hvalid : d.isValid = true) (haddr : address ≠ 0)
    (hstatus : (QBluetoothLocalDevice.pairingStatus d address statusLookup).1 = pairing) :
    ∃ t, QBluetoothLocalDevice.requestPairing d address pairing statusLookup workerLookup
        pairOutcome unpairOutcome = some t ∧
      t = (pairingInfoFromAddress address statusLookup).2 ++
        [Event.emitQueued (Signal.pairingFinished address pairing)] ∧
      notificationsOf t = [Signal.pairingFinished address pairing] ∧
      ∀ e ∈ t, isPairingCall e = false := by
  have ht := pairingStatus_trace d address statusLookup hvalid haddr
  obtain ⟨hsilent, hcalls⟩ := pairingInfoFromAddress_silent address statusLookup
  refine ⟨(pairingInfoFromAddress address statusLookup).2 ++
    [Event.emitQueued (Signal.pairingFinished address pairing)], ?_, rfl, ?_, ?_⟩
  · simp only [QBluetoothLocalDevice.requestPairing, hvalid, haddr]
    simp [hstatus, ht]
  · rw [notificationsOf_append, hsilent]
    rfl
  · intro e he
    rcases List.mem_append.1 he with h | h
    · exact hcalls e h
    · simp only [List.mem_singleton] at h
      subst h
      rfl

/-- Witness of C11: the device at address `5` is paired with encryption and the
caller asks for `AuthorizedPaired`. -/
theorem C11_requestPairing_already_in_mode_witness :
    validFacade.isValid = true ∧ (5 : Nat) ≠ 0 ∧
    (QBluetoothLocalDevice.pairingStatus validFacade 5 lookupFinds).1
      = Pairing.AuthorizedPaired ∧
    ∃ t, QBluetoothLocalDevice.requestPairing validFacade 5 Pairing.AuthorizedPaired
        lookupFinds lookupFinds none none = some t ∧
      t = (pairingInfoFromAddress 5 lookupFinds).2 ++
        [Event.emitQueued (Signal.pairingFinished 5 Pairing.AuthorizedPaired)] ∧
      notificationsOf t = [Signal.pairingFinished 5 Pairing.AuthorizedPaired] ∧
      ∀ e ∈ t, isPairingCall e = false :=
  ⟨by decide, by decide, by decide,
    C11_requestPairing_already_in_mode validFacade 5 Pairing.AuthorizedPaired lookupFinds
      lookupFinds none none (by decide) (by decide) (by decide)⟩

theorem pairAsync_unresolved (q : Bool) (addr : Nat) (pairing : Pairing) (L : PairingLookup)
    (pairOutcome : Option DevicePairingResultStatus)
    (unpairOutcome : Option DeviceUnpairingResultStatus)
    (hnull : (pairingInfoFromAddress addr L).1 = none) :
    PairingWorker.pairAsync q addr pairing L pairOutcome unpairOutcome = none := by
  cases pairing <;> simp [PairingWorker.pairAsync, hnull]

/-- C12, the code at the failing input: for the address `5` both lookups fail,
so `pairingInfoFromAddress` returns a null handle; `pairAsync` then calls
`Custom()` (desired `Paired`, `AuthorizedPaired`) or `UnpairAsync()` (desired
`Unpaired`) on the null handle and emits nothing. -/
theorem C12_pairAsync_unresolved_faults :
    (pairingInfoFromAddress 5 lookupFails).1 = none ∧
    PairingWorker.pairAsync true 5 Pairing.Paired lookupFails none none = none ∧
    PairingWorker.pairAsync true 5 Pairing.AuthorizedPaired lookupFails none none = none ∧
    PairingWorker.pairAsync true 5 Pairing.Unpaired lookupFails none none = none := by
  decide

/-- C13: when the pairing-info handle resolves and the facade is alive,
`pairAsync` returns with exactly one notification for every desired mode and
every outcome of the awaited platform call: `pairingFinished(address, desired
mode)` when the call completed in time with status exactly `Paired` (desired
`Paired` or `AuthorizedPaired`) or exactly `Unpaired` (desired `Unpaired`),
and `errorOccurred(PairingError)` in every other case.  In the pair branch the
confirmation handler is registered before `PairAsync` and deregistered right
after it for every outcome; the unpair branch issues `UnpairAsync` only. -/
theorem C13_pairAsync_one_notification (addr : Nat) (pairing : Pairing) (L : PairingLookup)
    (pairOutcome : Option DevicePairingResultStatus)
    (unpairOutcome : Option DeviceUnpairingResultStatus) (info : DeviceInformationPairing)
    (hres : (pairingInfoFromAddress addr L).1 = some info) :
    ∃ t n, PairingWorker.pairAsync true addr pairing L pairOutcome unpairOutcome = some t ∧
      notificationsOf t = [n] ∧
      (n = Signal.pairingFinished addr pairing ↔
        (pairing ≠ Pairing.Unpaired ∧ pairOutcome = some DevicePairingResultStatus.Paired) ∨
        (pairing = Pairing.Unpaired ∧
          unpairOutcome = some DeviceUnpairingResultStatus.Unpaired)) ∧
      (n ≠ Signal.pairingFinished addr pairing → n = Signal.errorOccurred Error.PairingError) ∧
      (pairing ≠ Pairing.Unpaired →
        t = (pairingInfoFromAddress addr L).2 ++
          [Event.pairingRequestedAdd info.device, Event.pairAsync info.device,
            Event.pairingRequestedRemove info.device] ++ [Event.emit n]) ∧
      (pairing = Pairing.Unpaired →
        t = (pairingInfoFromAddress addr L).2 ++ [Event.unpairAsync info.device] ++
          [Event.emit n]) := by
  obtain ⟨hsilent, -⟩ := pairingInfoFromAddress_silent addr L
  have hn : ∀ (calls : List Event) (n : Signal), notificationsOf calls = [] →
      notificationsOf ((pairingInfoFromAddress addr L).2 ++ calls ++ [Event.emit n]) = [n] := by
    intro calls n hc
    rw [notificationsOf_append, notificationsOf_append, hsilent, hc]
    rfl
  by_cases hu : pairing = Pairing.Unpaired
  · subst hu
    by_cases hok : unpairOutcome = some DeviceUnpairingResultStatus.Unpaired
    · refine ⟨(pairingInfoFromAddress addr L).2 ++ [Event.unpairAsync info.device] ++
          [Event.emit (Signal.pairingFinished addr Pairing.Unpaired)],
        Signal.pairingFinished addr Pairing.Unpaired, ?_, hn _ _ rfl, ?_, ?_, ?_, ?_⟩
      · simp [PairingWorker.pairAsync, hres, hok, awaitInto]
      · simp [hok]
      · intro h; exact absurd rfl h
      · intro h; exact absurd rfl h
      · intro _; rfl
    · refine ⟨(pairingInfoFromAddress addr L).2 ++ [Event.unpairAsync info.device] ++
          [Event.emit (Signal.errorOccurred Error.PairingError)],
        Signal.errorOccurred Error.PairingError, ?_, hn _ _ rfl, ?_, ?_, ?_, ?_⟩
      · cases unpairOutcome with
        | none => simp [PairingWorker.pairAsync, hres, awaitInto]
        | some st => cases st <;> simp_all [PairingWorker.pairAsync, awaitInto]
      · simp [hok]
      · intro _; rfl
      · intro h; exact absurd rfl h
      · intro _; rfl
  · by_cases hok : pairOutcome = some DevicePairingResultStatus.Paired
    · refine ⟨(pairingInfoFromAddress addr L).2 ++
          [Event.pairingRequestedAdd info.device, Event.pairAsync info.device,
            Event.pairingRequestedRemove info.device] ++
          [Event.emit (Signal.pairingFinished addr pairing)],
        Signal.pairingFinished addr pairing, ?_, hn _ _ rfl, ?_, ?_, ?_, ?_⟩
      · cases pairing <;> simp_all [PairingWorker.pairAsync, awaitInto]
      · simp [hok, hu]
      · intro h; exact absurd rfl h
      · intro _; rfl
      · intro h; exact absurd h hu
    · refine ⟨(pairingInfoFromAddress addr L).2 ++
          [Event.pairingRequestedAdd info.device, Event.pairAsync info.device,
            Event.pairingRequestedRemove info.device] ++
          [Event.emit (Signal.errorOccurred Error.PairingError)],
        Signal.errorOccurred Error.PairingError, ?_, hn _ _ rfl, ?_, ?_, ?_, ?_⟩
      · cases pairing with
        | Unpaired => exact absurd rfl hu
        | Paired =>
          cases pairOutcome with
          | none => simp [PairingWorker.pairAsync, hres, awaitInto]
          | some st => cases st <;> simp_all [PairingWorker.pairAsync, awaitInto]
        | AuthorizedPaired =>
          cases pairOutcome with
          | none => simp [PairingWorker.pairAsync, hres, awaitInto]
          | some st => cases st <;> simp_all [PairingWorker.pairAsync, awaitInto]
      · simp [hok, hu]
      · intro _; rfl
      · intro _; rfl
      · intro h; exact absurd h hu

/-- Witness of C13: the device found at address `5` is asked to pair and the
platform answers `AlreadyPaired`. -/
theorem C13_pairAsync_one_notification_witness :
    (pairingInfoFromAddress 5 lookupFinds).1 = some pairedDevice ∧
    PairingWorker.pairAsync true 5 Pairing.Paired lookupFinds
      (some DevicePairingResultStatus.AlreadyPaired) none
      = some [Event.fromBluetoothAddressAsync 5, Event.pairingRequestedAdd 3,
          Event.pairAsync 3, Event.pairingRequestedRemove 3,
          Event.emit (Signal.errorOccurred Error.PairingError)] ∧
    ∃ t n, PairingWorker.pairAsync true 5 Pairing.Paired lookupFinds
        (some DevicePairingResultStatus.AlreadyPaired) none = some t ∧
      notificationsOf t = [n] ∧
      (n = Signal.pairingFinished 5 Pairing.Paired ↔
        (Pairing.Paired ≠ Pairing.Unpaired ∧
          some DevicePairingResultStatus.AlreadyPaired
            = some DevicePairingResultStatus.Paired) ∨
        (Pairing.Paired = Pairing.Unpaired ∧
          (none : Option DeviceUnpairingResultStatus)
            = some DeviceUnpairingResultStatus.Unpaired)) ∧
      (n ≠ Signal.pairingFinished 5 Pairing.Paired →
        n = Signal.errorOccurred Error.PairingError) ∧
      (Pairing.Paired ≠ Pairing.Unpaired →
        t = (pairingInfoFromAddress 5 lookupFinds).2 ++
          [Event.pairingRequestedAdd pairedDevice.device, Event.pairAsync pairedDevice.device,
            Event.pairingRequestedRemove pairedDevice.device] ++ [Event.emit n]) ∧
      (Pairing.Paired = Pairing.Unpaired →
        t = (pairingInfoFromAddress 5 lookupFinds).2 ++
          [Event.unpairAsync pairedDevice.device] ++ [Event.emit n]) :=
  ⟨by decide, by decide,
    C13_pairAsync_one_notification 5 Pairing.Paired lookupFinds
      (some DevicePairingResultStatus.AlreadyPaired) none pairedDevice (by decide)⟩

/-! ## The function `await` -/

theorem awaitLoop_stops {T : Type} (asyncInfo : IAsyncOperation T) (timeout : Nat)
    (elapsed : Nat → Nat) (n : Nat) (hstop : loopCondition asyncInfo timeout elapsed n = false) :
    ∀ (steps k : Nat), k ≤ n → n < k + steps →
      (∀ i, k ≤ i → i < n → loopCondition asyncInfo timeout elapsed i = true) →
      awaitLoop asyncInfo timeout elapsed steps k = some (n, asyncInfo.Status n) := by
  intro steps
  induction steps with
  | zero => intro k h1 h2; omega
  | succ steps ih =>
    intro k h1 h2 hwait
    by_cases hk : k = n
    · subst hk
      simp [awaitLoop, hstop]
    · have hc := hwait k (Nat.le_refl k) (by omega)
      simp only [awaitLoop, hc, if_true]
      exact ih (k + 1) (by omega) (by omega) (fun i hi hin => hwait i (by omega) hin)

theorem awaitLoop_waits {T : Type} (asyncInfo : IAsyncOperation T) (timeout : Nat)
    (elapsed : Nat → Nat) :
    ∀ (steps k : Nat),
      (∀ i, k ≤ i → i < k + steps → loopCondition asyncInfo timeout elapsed i = true) →
      awaitLoop asyncInfo timeout elapsed steps k = none := by
  intro steps
  induction steps with
  | zero => intro k _; rfl
  | succ steps ih =>
    intro k hwait
    have hc := hwait k (Nat.le_refl k) (by omega)
    simp only [awaitLoop, hc, if_true]
    exact ih (k + 1) (fun i hi hin => hwait i (by omega) (by omega))

theorem awaitLoop_some {T : Type} (asyncInfo : IAsyncOperation T) (timeout : Nat)
    (elapsed : Nat → Nat) :
    ∀ (steps k j : Nat) (st : AsyncStatus),
      awaitLoop asyncInfo timeout elapsed steps k = some (j, st) →
      k ≤ j ∧ j < k + steps ∧ st = asyncInfo.Status j ∧
      (∀ i, k ≤ i → i < j → loopCondition asyncInfo timeout elapsed i = true) ∧
      loopCondition asyncInfo timeout elapsed j = false := by
  intro steps
  induction steps with
  | zero => intro k j st h; cases h
  | succ steps ih =>
    intro k j st h
    by_cases hc : loopCondition asyncInfo timeout elapsed k = true
    · simp only [awaitLoop, hc, if_true] at h
      obtain ⟨h1, h2, h3, h4, h5⟩ := ih (k + 1) j st h
      refine ⟨by omega, by omega, h3, ?_, h5⟩
      intro i hi hij
      by_cases hik : i = k
      · subst hik; exact hc
      · exact h4 i (by omega) hij
    · simp only [awaitLoop, hc] at h
      simp only [Bool.false_eq_true, if_false, Option.some.injEq, Prod.mk.injEq] at h
      obtain ⟨hj, hst⟩ := h
      subst hj
      refine ⟨Nat.le_refl _, by omega, hst.symm, ?_, by simpa using hc⟩
      intro i hi hik
      omega

/-- C14: `await` polls the status at least once.  If the loop condition holds
after the polls `0 .. n - 1` and fails after poll `n`, then with any bound
above `n` polls `await` returns after poll `n`: `true` with `result` set to
the operation's result when the status of that poll is `Completed`, `false`
with `result` untouched otherwise (timeout elapsed with the status still
`Started`, or `Error`, or `Canceled`).  While the loop condition holds `await`
does not return, and with no timeout (`0`) the loop condition is just that the
status is `Started`.  Whenever `await` returns, it does so after some poll `n`
that only `Started` polls precede, with `true` exactly when that last status
is `Completed`. -/
theorem C14_await_returns_last_status {T : Type} (asyncInfo : IAsyncOperation T) (result : T)
    (timeout : Nat) (elapsed : Nat → Nat) :
    (∀ n steps, (∀ i, i < n → loopCondition asyncInfo timeout elapsed i = true) →
      loopCondition asyncInfo timeout elapsed n = false → n < steps →
      await asyncInfo result timeout elapsed steps =
        some (if asyncInfo.Status n = AsyncStatus.Completed
          then (true, asyncInfo.GetResults) else (false, result))) ∧
    (∀ steps, (∀ i, i < steps → loopCondition asyncInfo timeout elapsed i = true) →
      await asyncInfo result timeout elapsed steps = none) ∧
    (∀ k, timeout = 0 →
      (loopCondition asyncInfo timeout elapsed k = true ↔
        asyncInfo.Status k = AsyncStatus.Started)) ∧
    (∀ k, loopCondition asyncInfo timeout elapsed k = false →
      asyncInfo.Status k ≠ AsyncStatus.Started ∨ (timeout ≠ 0 ∧ elapsed k > timeout)) ∧
    (∀ steps b r, await asyncInfo result timeout elapsed steps = some (b, r) →
      ∃ n, n < steps ∧ (∀ i, i < n → asyncInfo.Status i = AsyncStatus.Started) ∧
        (b = true ↔ asyncInfo.Status n = AsyncStatus.Completed) ∧
        (b = true → r = asyncInfo.GetResults) ∧ (b = false → r = result)) := by
  refine ⟨?_, ?_, ?_, ?_, ?_⟩
  · intro n steps hwait hstop hn
    have h := awaitLoop_stops asyncInfo timeout elapsed n hstop steps 0 (Nat.zero_le n)
      (by omega) (fun i _ hin => hwait i hin)
    simp only [await, h]
    split <;> rfl
  · intro steps hwait
    have h := awaitLoop_waits asyncInfo timeout elapsed steps 0
      (fun i _ hin => hwait i (by omega))
    simp only [await, h]
  · intro k h0
    simp [loopCondition, h0]
  · intro k hc
    simp only [loopCondition, Bool.and_eq_false_iff, Bool.or_eq_false_iff,
      decide_eq_false_iff_not, beq_eq_false_iff_ne, Bool.not_eq_false', decide_eq_true_eq] at hc
    rcases hc with h | ⟨h1, h2⟩
    · exact Or.inl h
    · exact Or.inr ⟨h1, h2⟩
  · intro steps b r h
    cases hl : awaitLoop asyncInfo timeout elapsed steps 0 with
    | none => simp [await, hl] at h
    | some p =>
      obtain ⟨n, st⟩ := p
      obtain ⟨_, h2, h3, h4, _⟩ := awaitLoop_some asyncInfo timeout elapsed steps 0 n st hl
      refine ⟨n, by omega, ?_, ?_⟩
      · intro i hin
        have hc := h4 i (Nat.zero_le i) hin
        simp only [loopCondition, Bool.and_eq_true, decide_eq_true_eq] at hc
        exact hc.1
      · simp only [await, hl] at h
        by_cases hst : st = AsyncStatus.Completed
        · simp only [hst, if_true, Option.some.injEq, Prod.mk.injEq] at h
          obtain ⟨hb, hr⟩ := h
          subst hb hr
          exact ⟨⟨fun _ => (by rw [← h3, hst]), fun _ => rfl⟩, fun _ => rfl,
            fun hf => (by cases hf)⟩
        · simp only [hst, if_false, Option.some.injEq, Prod.mk.injEq] at h
          obtain ⟨hb, hr⟩ := h
          subst hb hr
          refine ⟨⟨fun hf => (by cases hf), fun hc => ?_⟩, fun hf => (by cases hf), fun _ => rfl⟩
          rw [← h3] at hc
          exact absurd hc hst

/-- Witness of C14: an operation that completes at its third poll is awaited
with a bound of 5 polls and no timeout; an operation that stays `Started` is
awaited with a timeout of 25 ms on a timer that advances 10 ms per poll, and
is given up after the fourth poll with `result` untouched. -/
theorem C14_await_returns_last_status_witness :
    await completesAtThirdPoll 0 0 tenPerPoll 5
      = some (if completesAtThirdPoll.Status 2 = AsyncStatus.Completed
          then (true, completesAtThirdPoll.GetResults) else (false, 0)) ∧
    await neverCompletes 0 25 tenPerPoll 5
      = some (if neverCompletes.Status 3 = AsyncStatus.Completed
          then (true, neverCompletes.GetResults) else (false, 0)) ∧
    await neverCompletes 0 0 tenPerPoll 5 = none :=
  ⟨(C14_await_returns_last_status completesAtThirdPoll 0 0 tenPerPoll).1 2 5
      (by decide) (by decide) (by decide),
    (C14_await_returns_last_status neverCompletes 0 25 tenPerPoll).1 3 5
      (by decide) (by decide) (by decide),
    (C14_await_returns_last_status neverCompletes 0 0 tenPerPoll).2.1 5 (by decide)⟩

theorem await_eq_awaitInto {T : Type} (asyncInfo : IAsyncOperation T) (result : T)
    (timeout : Nat) (elapsed : Nat → Nat) (steps : Nat) (r : Bool × T)
    (h : await asyncInfo result timeout elapsed steps = some r) :
    r = awaitInto (some asyncInfo.GetResults) result ∨ r = awaitInto none result := by
  simp only [await] at h
  split at h
  · cases h
  · split at h <;> cases h
    · exact Or.inl rfl
    · exact Or.inr rfl

/-! ## The mutex `mRadiosMutex` -/

namespace AdapterManager

theorem runMutex_resolution (R : Resolution) (rest : List MutexStep) :
    runMutex false (getRadioFromAdapterIdSteps R ++ rest) = runMutex false rest := by
  simp only [getRadioFromAdapterIdSteps]
  split <;> simp [runMutex]

theorem runMutex_cold_path (R : Resolution) (rest : List MutexStep) :
    runMutex false ([MutexStep.lock, MutexStep.unlock] ++ getRadioFromAdapterIdSteps R ++ rest)
      = runMutex false rest := by
  rw [List.append_assoc]
  show runMutex false (MutexStep.lock :: MutexStep.unlock ::
    (getRadioFromAdapterIdSteps R ++ rest)) = runMutex false rest
  simp only [runMutex, Bool.false_eq_true, if_false, if_true]
  exact runMutex_resolution R rest

theorem suspend_mem_resolution (R : Resolution) :
    MutexStep.suspend ∈ getRadioFromAdapterIdSteps R := by
  simp only [getRadioFromAdapterIdSteps]
  split <;> simp

/-- C15: in every execution of `addClient`, `updateMode` and
`tryResubscribeToStateChanges` the handler takes `mRadiosMutex` only when it
does not hold it, releases it only when it holds it, does not hold it at any
suspension in `await` (the two of `getRadioFromAdapterId`, the one of
`SetStateAsync`), and has released it when it returns.  The cold paths do
suspend: `addClient` without a record, `updateMode` on a record with a live
handle, a resubscription attempt on a record without handle. -/
theorem C15_mutex_released_at_suspensions (m : Registry) (id : AdapterId) (R : Resolution) :
    runMutex false (addClientSteps m id R) = some false ∧
    runMutex false (updateModeSteps m id) = some false ∧
    runMutex false (tryResubscribeToStateChangesSteps m id R) = some false ∧
    (QMap.contains m id = false → MutexStep.suspend ∈ addClientSteps m id R) ∧
    ((QMap.get m id).radio ≠ none → MutexStep.suspend ∈ updateModeSteps m id) ∧
    (Unplugged id m → MutexStep.suspend ∈ tryResubscribeToStateChangesSteps m id R) := by
  refine ⟨?_, ?_, ?_, ?_, ?_, ?_⟩
  · simp only [addClientSteps]
    split
    · rfl
    · rw [runMutex_cold_path]
      split <;> rfl
  · simp only [updateModeSteps]
    repeat' split
    all_goals rfl
  · simp only [tryResubscribeToStateChangesSteps]
    split
    · split
      · rfl
      · rw [runMutex_cold_path]
        split <;> rfl
    · rfl
  · intro hc
    simp only [addClientSteps, hc]
    simp [suspend_mem_resolution]
  · intro hr
    have hc : QMap.contains m id = true := by
      cases hf : QMap.find m id with
      | none => simp [QMap.get, hf] at hr
      | some info => exact (QMap.contains_eq_true_iff m id).2 ⟨info, hf⟩
    simp only [updateModeSteps, hc, if_true]
    cases hrad : (QMap.get m id).radio with
    | none => exact absurd hrad hr
    | some r => simp
  · intro hu
    obtain ⟨info, hfind, hnull⟩ := hu
    have hc : QMap.contains m id = true := (QMap.contains_eq_true_iff m id).2 ⟨info, hfind⟩
    simp [tryResubscribeToStateChangesSteps, hc, QMap.get, hfind, hnull, suspend_mem_resolution]

/-- Witness of C15: the attempt on the unplugged `adapter-1` suspends twice in
`getRadioFromAdapterId` with the mutex released. -/
theorem C15_mutex_released_at_suspensions_witness :
    Unplugged "adapter-1" unpluggedRegistry ∧
    tryResubscribeToStateChangesSteps unpluggedRegistry "adapter-1" resolvesTo7 =
      [MutexStep.lock, MutexStep.unlock, MutexStep.suspend, MutexStep.suspend,
        MutexStep.lock, MutexStep.unlock] ∧
    MutexStep.suspend ∈ tryResubscribeToStateChangesSteps unpluggedRegistry "adapter-1"
      resolvesTo7 ∧
    runMutex false (tryResubscribeToStateChangesSteps unpluggedRegistry "adapter-1"
      resolvesTo7) = some false :=
  ⟨⟨⟨none, 107, 2, RadioState.On⟩, by decide, rfl⟩, by decide,
    (C15_mutex_released_at_suspensions unpluggedRegistry "adapter-1" resolvesTo7).2.2.2.2.2
      ⟨⟨none, 107, 2, RadioState.On⟩, by decide, rfl⟩,
    (C15_mutex_released_at_suspensions unpluggedRegistry "adapter-1" resolvesTo7).2.2.1⟩

/-! ## Facade lifetimes and the race of two `addClient` calls -/

/-- C16, the code at the failing input: facade `b` is constructed for
`adapter-1` while the radio resolution fails (no record is created), facade
`a` is constructed for the same adapter and registers (`numClients = 1`), then
`b` is destroyed: its destructor calls `removeClient`, which counts the record
of `a` down to zero and removes it while `a` is alive. -/
theorem C16_destroying_unregistered_facade_removes_record :
    QBluetoothLocalDevicePrivate.construct [] (some (1, "adapter-1")) platformOn resolvesNot id
      = some ([], ⟨some 1, "adapter-1", HostMode.HostPoweredOff⟩) ∧
    QBluetoothLocalDevicePrivate.construct [] (some (1, "adapter-1")) platformOn resolvesTo7 id
      = some ([("adapter-1", ⟨some 7, 107, 1, RadioState.On⟩)],
          ⟨some 1, "adapter-1", HostMode.HostConnectable⟩) ∧
    (QBluetoothLocalDevicePrivate.destruct [("adapter-1", ⟨some 7, 107, 1, RadioState.On⟩)]
      ⟨some 1, "adapter-1", HostMode.HostPoweredOff⟩).mRadios = [] ∧
    (QBluetoothLocalDevicePrivate.destruct [("adapter-1", ⟨some 7, 107, 1, RadioState.On⟩)]
      ⟨some 1, "adapter-1", HostMode.HostPoweredOff⟩).trace = [Event.unsubscribe 7 107] := by
  decide

/-- C17, the code at the failing input: `addClient` for `adapter-1` starts on
the empty registry and suspends in the radio resolution; meanwhile a second
`addClient` for the same id runs to completion and inserts a record with
`numClients = 1`; the first call resumes and inserts its own fresh record over
it, so the registry ends with `numClients = 1` for two registered clients. -/
theorem C17_resumed_addClient_replaces_record :
    otherClientRegisters [] = [("adapter-1", ⟨some 7, 107, 1, RadioState.On⟩)] ∧
    (addClient [] "adapter-1" platformOn resolvesTo7 otherClientRegisters).map
      (fun o => o.mRadios) = some [("adapter-1", ⟨some 7, 107, 1, RadioState.On⟩)] ∧
    (addClient [] "adapter-1" platformOn resolvesTo7 otherClientRegisters).map
      (fun o => (QMap.get o.mRadios "adapter-1").numClients) = some 1 := by
  decide

/-! ## Power states of `modeChanged` -/

theorem onStateChange_without_owner (m : Registry) (radio : Radio) (P : Platform)
    (hown : owner m radio = none) : onStateChange m radio P = ⟨m, [], ()⟩ := by
  unfold owner at hown
  rw [onStateChange, onStateChangeLoop_eq, hown]

/-- C18, counterexample: the record of `adapter-1` stores `Off` and its radio
reports `Disabled`; both project to `HostPoweredOff`, yet `onStateChange`
emits `modeChanged(adapter-1, HostPoweredOff)`. -/
theorem C18_counterexample_same_power_state :
    QMap.find staleRegistry "adapter-1" = some ⟨some 7, 107, 1, RadioState.Off⟩ ∧
    (onStateChange staleRegistry 7 platformDisabled).trace
      = [Event.emit (Signal.modeChanged "adapter-1" HostMode.HostPoweredOff)] ∧
    modeFromWindowsBluetoothState RadioState.Off = HostMode.HostPoweredOff ∧
    modeFromWindowsBluetoothState RadioState.Disabled = HostMode.HostPoweredOff := by
  decide

/-- C18, amended: every `modeChanged` that `onStateChange` emits is for a
record that holds the reporting handle, carries the projection of the state
the radio reports, and is emitted only when that native state differs from the
record's `currentState` before the callback (whether or not the two project
to the same power state).  A facade whose `mMode` already is the carried power
state drops the notification in `radioModeChanged`: it emits nothing and keeps
its members. -/
theorem C18_modeChanged_on_native_state_change (m : Registry) (radio : Radio) (P : Platform)
    (key : AdapterId) (mode : HostMode)
    (h : (key, mode) ∈ modeChangesOf (onStateChange m radio P).trace) :
    ∃ before, QMap.find m key = some before ∧ before.radio = some radio ∧
      before.currentState ≠ P.State radio ∧
      mode = modeFromWindowsBluetoothState (P.State radio) ∧
      ∀ d : QBluetoothLocalDevicePrivate, d.mMode = mode →
        d.radioModeChanged key mode = (d, []) := by
  cases hown : owner m radio with
  | none =>
    rw [onStateChange_without_owner m radio P hown] at h
    simp [modeChangesOf] at h
  | some k =>
    obtain ⟨before, hbefore, hradio⟩ := owner_spec m radio k hown
    have hget : QMap.get m k = before := QMap.get_of_find hbefore
    have hcur := currentState_get_modify m k (P.State radio) before hbefore
    rw [onStateChange_of_owner m radio P k hown, hget, hcur] at h
    by_cases hs : before.currentState = P.State radio
    · simp [hs, modeChangesOf] at h
    · simp only [ne_eq, hs, not_false_eq_true, if_true, modeChangesOf, List.filterMap_cons,
        List.filterMap_nil, List.mem_singleton, Prod.mk.injEq] at h
      obtain ⟨hk, hm⟩ := h
      subst hk hm
      refine ⟨before, hbefore, hradio, hs, rfl, ?_⟩
      intro d hd
      simp [QBluetoothLocalDevicePrivate.radioModeChanged, hd]

/-- Witness of C18 (amended): radio `7` of `adapter-1`, stored as `Off`,
reports `Disabled`. -/
theorem C18_modeChanged_on_native_state_change_witness :
    ("adapter-1", HostMode.HostPoweredOff)
      ∈ modeChangesOf (onStateChange staleRegistry 7 platformDisabled).trace ∧
    ∃ before, QMap.find staleRegistry "adapter-1" = some before ∧ before.radio = some 7 ∧
      before.currentState ≠ platformDisabled.State 7 ∧
      HostMode.HostPoweredOff = modeFromWindowsBluetoothState (platformDisabled.State 7) ∧
      ∀ d : QBluetoothLocalDevicePrivate, d.mMode = HostMode.HostPoweredOff →
        d.radioModeChanged "adapter-1" HostMode.HostPoweredOff = (d, []) :=
  ⟨by decide,
    C18_modeChanged_on_native_state_change staleRegistry 7 platformDisabled "adapter-1"
      HostMode.HostPoweredOff (by decide)⟩

end AdapterManager

end QtConnectivity
